import Mathlib

/-!
# Grapple mechanic of `AGrappleCharacter`

A shallow embedding of the timer-driven grapple state machine of
`Source/Demo/Private/Character/GrappleCharacter.{h,cpp}`.

Conventions of the embedding

* `float` scalars are rationals (`ℚ`); no rounding is modelled.
* The member variables of the character that the grapple code reads or writes
  are the fields of `Character`. Properties of engine objects the code writes
  (cable visibility and location, movement mode, velocity) are fields as well.
* What the engine answers when it is asked (camera transforms, delta seconds,
  line traces, the actor location, the end point of a swept move) is a field of
  `World`; every operation that queries the engine takes the `World` of the
  moment of the call.
* Requests to the engine that have no member variable to land in
  (`LaunchCharacter`, `Jump`, `SetJumpTriggered`) are appended to `Calls`, in
  call order.
* `GrappleTH` stands for the timer the handle refers to in the timer manager:
  `none` when `TimerExists(GrappleTH)` is false.
-/

namespace GrappleCharacter

/-- Engine vector `FVector`, three scalar components. -/
structure FVector where
  X : ℚ
  Y : ℚ
  Z : ℚ
deriving DecidableEq

namespace FVector

/-- Componentwise sum, `operator+`. -/
def add (a b : FVector) : FVector := ⟨a.X + b.X, a.Y + b.Y, a.Z + b.Z⟩

/-- Componentwise difference, `operator-`. -/
def sub (a b : FVector) : FVector := ⟨a.X - b.X, a.Y - b.Y, a.Z - b.Z⟩

/-- Scaling by a scalar, `operator*(float)`. -/
def scale (a : FVector) (k : ℚ) : FVector := ⟨a.X * k, a.Y * k, a.Z * k⟩

/-- Squared length, `FVector::SizeSquared`. -/
def SizeSquared (a : FVector) : ℚ := a.X * a.X + a.Y * a.Y + a.Z * a.Z

/-- The vector built by `FVector{ 0.f }`. -/
def zero : FVector := ⟨0, 0, 0⟩

end FVector

/-- Engine `FMath::Clamp`. -/
def Clamp (x lo hi : ℚ) : ℚ := if x < lo then lo else if hi < x then hi else x

/-- Engine `UKismetMathLibrary::VInterpTo` (`FMath::VInterpTo`): jump to the target
when the speed is not positive or the target is closer than `KINDA_SMALL_NUMBER`
(squared), otherwise move by the clamped fraction `DeltaTime * InterpSpeed`. -/
def VInterpTo (Current Target : FVector) (DeltaTime InterpSpeed : ℚ) : FVector :=
  if InterpSpeed ≤ 0 then Target
  else
    let Dist := Target.sub Current
    if Dist.SizeSquared < 1 / 10000 then Target
    else Current.add (Dist.scale (Clamp (DeltaTime * InterpSpeed) 0 1))

/-- Engine `UKismetMathLibrary::EqualEqual_VectorVector` (`FVector::Equals`):
every component differs by at most the tolerance. -/
def EqualEqual_VectorVector (A B : FVector) (ErrorTolerance : ℚ) : Bool :=
  decide (|A.X - B.X| ≤ ErrorTolerance) && decide (|A.Y - B.Y| ≤ ErrorTolerance)
    && decide (|A.Z - B.Z| ≤ ErrorTolerance)

/-- The test `UKismetMathLibrary::VSize(V) <= R`, decided without the square root:
for `R ≥ 0` it is `SizeSquared V ≤ R * R`. -/
def VSizeLE (V : FVector) (R : ℚ) : Bool :=
  decide (0 ≤ R) && decide (V.SizeSquared ≤ R * R)

/-- Engine `EMovementMode`. -/
inductive EMovementMode where
  | MOVE_None | MOVE_Walking | MOVE_NavWalking | MOVE_Falling
  | MOVE_Swimming | MOVE_Flying | MOVE_Custom
deriving DecidableEq

/-- The parameterless member functions of the character a timer delegate can be
bound to. -/
inductive Method where
  | UpdateStartDirection | StartJump | EndJump | SwitchCamera | Grapple
  | StartGrapple | MoveGrappleTo | MovePlayerToGrappledLocation
  | BreakGrapple | StopGrapple | ClearGrappleTimer
deriving DecidableEq

/-- What `SetTimer` registers: the bound member function, the period and the
looping flag. -/
structure FTimerData where
  Callback : Method
  Rate : ℚ
  bLoop : Bool
deriving DecidableEq

/-- Requests made to the engine that are not stored in a member variable. -/
inductive EngineCall where
  | LaunchCharacter (LaunchVelocity : FVector) (bXYOverride bZOverride : Bool)
  | Jump
  | StopJumping
  | SetJumpTriggered (IsJumping : Bool)
deriving DecidableEq

/-- What the engine answers at the moment of a call. -/
structure World where
  /-- Answer of `UGameplayStatics::GetWorldDeltaSeconds(GetWorld())`. -/
  DeltaSeconds : ℚ
  /-- Answer of `GetActorLocation()`. -/
  ActorLocation : FVector
  /-- Answer of `ThirdPersonCamera->GetComponentLocation()`. -/
  ThirdPersonCameraLocation : FVector
  /-- Answer of `ThirdPersonCamera->GetForwardVector()`. -/
  ThirdPersonCameraForward : FVector
  /-- Answer of `FirstPersonCamera->GetComponentLocation()`. -/
  FirstPersonCameraLocation : FVector
  /-- Answer of `FirstPersonCamera->GetForwardVector()`. -/
  FirstPersonCameraForward : FVector
  /-- Answer of `GetMesh()->GetRightVector()`. -/
  MeshRightVector : FVector
  /-- Answer of `UKismetSystemLibrary::LineTraceSingleForObjects` from a start to an end
  point, for the given object types and ignored actors: the location of the
  blocking hit, or `none`. -/
  LineTraceSingleForObjects : FVector → FVector → List Nat → List Nat → Option FVector
  /-- Answer of `LineTraceSingleByChannel` on `ECC_Visibility` from a start to an end point:
  whether there is a blocking hit. -/
  LineTraceSingleByChannel : FVector → FVector → Bool
  /-- Where `SetWorldLocation(_, true)` leaves a component that is swept from its
  location (first argument) to the requested one (second argument). -/
  Sweep : FVector → FVector → FVector

/-- The member variables of `AGrappleCharacter` used by the grapple code, and the
engine properties that code writes. -/
structure Character where
  bIsFirstPerson : Bool
  StartDirection : Int
  GrapplableTargets : List Nat
  ActorsToIgnore : List Nat
  GrappleLength : ℚ
  GrappleAttachSpeed : ℚ
  PlayerGrappleSpeed : ℚ
  BreakOffGrappleVelocity : FVector
  GrappleAcceptanceRadius : ℚ
  GrappleAcceptedFallDistance : ℚ
  AttachLocation : FVector
  bGrappleActive : Bool
  bGrappleAttached : Bool
  bArrived : Bool
  /-- The timer behind the handle `GrappleTH`, if it exists. -/
  GrappleTH : Option FTimerData
  /-- Engine property `APawn::bUseControllerRotationYaw`. -/
  bUseControllerRotationYaw : Bool
  /-- Visibility of the component `GrappleCable`. -/
  CableVisible : Bool
  /-- World location of the component `GrappleCable`. -/
  CableLocation : FVector
  /-- Engine property `GetCharacterMovement()->MovementMode`. -/
  MovementMode : EMovementMode
  /-- Engine property `GetCharacterMovement()->Velocity`. -/
  Velocity : FVector
  /-- Requests made to the engine so far, oldest first. -/
  Calls : List EngineCall
deriving DecidableEq

/-- Actor id of the character itself (`this`). -/
def selfActor : Nat := 0

/-- The character after construction: the default member initialisers of the
header and the assignments of the constructor. -/
def initial : Character where
  bIsFirstPerson := false
  StartDirection := 0
  GrapplableTargets := [1, 2]
  ActorsToIgnore := [selfActor]
  GrappleLength := 10000
  GrappleAttachSpeed := 50
  PlayerGrappleSpeed := 250
  BreakOffGrappleVelocity := ⟨0, 0, 750⟩
  GrappleAcceptanceRadius := 45
  GrappleAcceptedFallDistance := 150
  AttachLocation := FVector.zero
  bGrappleActive := false
  bGrappleAttached := false
  bArrived := false
  GrappleTH := none
  bUseControllerRotationYaw := false
  CableVisible := false
  CableLocation := FVector.zero
  MovementMode := EMovementMode.MOVE_Walking
  Velocity := FVector.zero
  Calls := []

/-- Engine `TArray::AddUnique`. -/
def AddUnique (l : List Nat) (x : Nat) : List Nat := if x ∈ l then l else l ++ [x]

/-- Engine function `ACharacter::LaunchCharacter`: the request is recorded. -/
def LaunchCharacter (LaunchVelocity : FVector) (bXYOverride bZOverride : Bool)
    (s : Character) : Character :=
  { s with Calls := s.Calls ++ [EngineCall.LaunchCharacter LaunchVelocity bXYOverride bZOverride] }

/-- Member function `AGrappleCharacter::HandleThirdPersonAnimJump`. -/
def HandleThirdPersonAnimJump (IsJumping : Bool) (s : Character) : Character :=
  if !s.bIsFirstPerson then
    { s with Calls := s.Calls ++ [EngineCall.SetJumpTriggered IsJumping] }
  else s

/-- Member function `AGrappleCharacter::ClearGrappleTimer`. -/
def ClearGrappleTimer (s : Character) : Character :=
  if s.GrappleTH.isSome then { s with GrappleTH := none } else s

/-- Member function `AGrappleCharacter::StopGrapple_Implementation`. -/
def StopGrapple (s : Character) : Character :=
  let s1 := ClearGrappleTimer s
  let s2 := { s1 with bGrappleActive := false, bGrappleAttached := false, CableVisible := false }
  if !s2.bIsFirstPerson then { s2 with bUseControllerRotationYaw := false } else s2

/-- Member function `AGrappleCharacter::BreakGrapple_Implementation`. -/
def BreakGrapple (s : Character) : Character :=
  StopGrapple (LaunchCharacter s.BreakOffGrappleVelocity false false s)

/-- Member function `AGrappleCharacter::StartJump_Implementation`. -/
def StartJump (s : Character) : Character :=
  if s.bGrappleActive && !s.bArrived then StopGrapple s
  else
    let s1 := if s.bArrived && s.bGrappleActive then BreakGrapple s else s
    let s2 := { s1 with Calls := s1.Calls ++ [EngineCall.Jump] }
    HandleThirdPersonAnimJump true s2

/-- Member function `AGrappleCharacter::EndJump_Implementation`. -/
def EndJump (s : Character) : Character :=
  HandleThirdPersonAnimJump false { s with Calls := s.Calls ++ [EngineCall.StopJumping] }

/-- The first half of `AGrappleCharacter::Grapple_Implementation`: start and end
of the line trace, or `none` when the function returns before tracing. -/
def GrappleRay (w : World) (s : Character) : Option (FVector × FVector) :=
  if !s.bIsFirstPerson then
    if s.StartDirection ≠ 0 then none
    else
      let StartLocationLocal := w.ThirdPersonCameraLocation
      let CombinedVecLocal : FVector :=
        ⟨w.MeshRightVector.X, w.MeshRightVector.Y, w.ThirdPersonCameraForward.Z⟩
      some (StartLocationLocal, StartLocationLocal.add (CombinedVecLocal.scale s.GrappleLength))
  else
    let StartLocationLocal := w.FirstPersonCameraLocation
    some (StartLocationLocal,
      StartLocationLocal.add (w.FirstPersonCameraForward.scale s.GrappleLength))

/-- Member function `AGrappleCharacter::Grapple_Implementation`. -/
def Grapple (w : World) (s : Character) : Character :=
  match GrappleRay w s with
  | none => s
  | some (StartLocationLocal, EndLocationLocal) =>
    match w.LineTraceSingleForObjects StartLocationLocal EndLocationLocal
        s.GrapplableTargets s.ActorsToIgnore with
    | some HitLocation =>
      { s with
        bGrappleActive := true
        bArrived := false
        AttachLocation := HitLocation
        CableVisible := true
        GrappleTH := some ⟨Method.StartGrapple, 1 / 100, true⟩ }
    | none => if !s.bGrappleAttached then StopGrapple s else s

/-- Member function `AGrappleCharacter::MoveGrappleTo_Implementation`. -/
def MoveGrappleTo (w : World) (s : Character) : Character :=
  if VSizeLE (s.CableLocation.sub s.AttachLocation) 10 then
    { s with bGrappleAttached := true }
  else
    { s with
      CableLocation := w.Sweep s.CableLocation
        (VInterpTo s.CableLocation s.AttachLocation w.DeltaSeconds s.GrappleAttachSpeed)
      bGrappleAttached := false }

/-- Member function `AGrappleCharacter::MovePlayerToGrappledLocation_Implementation`. -/
def MovePlayerToGrappledLocation (w : World) (s : Character) : Character :=
  if s.bGrappleActive && s.bArrived && !s.bIsFirstPerson then
    { s with
      MovementMode := EMovementMode.MOVE_Flying
      bUseControllerRotationYaw := true
      Velocity := FVector.zero }
  else
    let LaunchVelocityLocal :=
      (s.AttachLocation.sub w.ActorLocation).scale (w.DeltaSeconds * s.PlayerGrappleSpeed)
    let s1 := LaunchCharacter LaunchVelocityLocal true true s
    if EqualEqual_VectorVector w.ActorLocation s1.AttachLocation s1.GrappleAcceptanceRadius then
      let EndLocationLocal := w.ActorLocation.sub ⟨0, 0, s1.GrappleAcceptedFallDistance⟩
      if w.LineTraceSingleByChannel w.ActorLocation EndLocationLocal then BreakGrapple s1
      else { s1 with bArrived := true }
    else s1

/-- Member function `AGrappleCharacter::StartGrapple_Implementation`, the timer callback. -/
def StartGrapple (w : World) (s : Character) : Character :=
  if s.bGrappleActive then
    if s.bGrappleAttached then
      let s1 := MovePlayerToGrappledLocation w s
      { s1 with
        CableLocation := w.Sweep s1.CableLocation
          (VInterpTo s1.CableLocation s1.AttachLocation w.DeltaSeconds s1.PlayerGrappleSpeed) }
    else MoveGrappleTo w s
  else ClearGrappleTimer s

/-- Member function `AGrappleCharacter::SwitchCamera_Implementation`, on the member variables of
the model (component activation and widgets are not part of it). -/
def SwitchCamera (s : Character) : Character :=
  if s.bIsFirstPerson then { s with bUseControllerRotationYaw := false, bIsFirstPerson := false }
  else { s with bUseControllerRotationYaw := true, bIsFirstPerson := true }

/-- Member function `AGrappleCharacter::UpdateStartDirection_Implementation`, given the value of
`int32 StartDirectionLocal = CalculateInputRotation().Yaw`. -/
def UpdateStartDirection (StartDirectionLocal : Int) (s : Character) : Character :=
  if StartDirectionLocal ≥ 180 ∧ StartDirectionLocal ≤ -156 then { s with StartDirection := -180 }
  else if StartDirectionLocal ≥ -155 ∧ StartDirectionLocal ≤ -112 then
    { s with StartDirection := -135 }
  else if StartDirectionLocal ≥ -111 ∧ StartDirectionLocal ≤ -66 then
    { s with StartDirection := -90 }
  else if StartDirectionLocal ≥ -65 ∧ StartDirectionLocal ≤ -22 then
    { s with StartDirection := -45 }
  else if StartDirectionLocal ≥ -21 ∧ StartDirectionLocal ≤ 21 then
    { s with StartDirection := 0 }
  else if StartDirectionLocal ≥ 22 ∧ StartDirectionLocal ≤ 65 then
    { s with StartDirection := 45 }
  else if StartDirectionLocal ≥ 66 ∧ StartDirectionLocal ≤ 111 then
    { s with StartDirection := 90 }
  else if StartDirectionLocal ≥ 112 ∧ StartDirectionLocal ≤ 155 then
    { s with StartDirection := 135 }
  else if StartDirectionLocal ≥ 156 ∧ StartDirectionLocal ≤ 179 then
    { s with StartDirection := 180 }
  else s

/-- Member function `AGrappleCharacter::AddToGrappableTargets`. -/
def AddToGrappableTargets (NewTarget : Nat) (s : Character) : Character :=
  { s with GrapplableTargets := AddUnique s.GrapplableTargets NewTarget }

/-- Member function `AGrappleCharacter::AddActorsToIgnore`. -/
def AddActorsToIgnore (NewActor : Nat) (s : Character) : Character :=
  { s with ActorsToIgnore := AddUnique s.ActorsToIgnore NewActor }

/-- Member function `AGrappleCharacter::SetGrappleLength`. -/
def SetGrappleLength (NewLength : ℚ) (s : Character) : Character :=
  { s with GrappleLength := NewLength }

/-- Member function `AGrappleCharacter::SetGrappleAttachSpeed`. -/
def SetGrappleAttachSpeed (NewSpeed : ℚ) (s : Character) : Character :=
  { s with GrappleAttachSpeed := NewSpeed }

/-- Member function `AGrappleCharacter::SetPlayerGrappleSpeed`. -/
def SetPlayerGrappleSpeed (NewSpeed : ℚ) (s : Character) : Character :=
  { s with PlayerGrappleSpeed := NewSpeed }

/-- Member function `AGrappleCharacter::SetBreakOffGrappleVelocity`. -/
def SetBreakOffGrappleVelocity (NewVelocity : FVector) (s : Character) : Character :=
  { s with BreakOffGrappleVelocity := NewVelocity }

/-- Member function `AGrappleCharacter::SetGrappleAcceptanceRadius`. -/
def SetGrappleAcceptanceRadius (NewRadius : ℚ) (s : Character) : Character :=
  { s with GrappleAcceptanceRadius := NewRadius }

/-- Member function `AGrappleCharacter::SetGrappleAcceptedFallDistance`. -/
def SetGrappleAcceptedFallDistance (NewDistance : ℚ) (s : Character) : Character :=
  { s with GrappleAcceptedFallDistance := NewDistance }

/-- The outcome of the line trace of `Grapple`: `none` when the function returns
before tracing, `some none` when the trace reports no blocking hit, and
`some (some P)` when it reports a blocking hit at `P`. -/
def GrappleTrace (w : World) (s : Character) : Option (Option FVector) :=
  (GrappleRay w s).map fun r =>
    w.LineTraceSingleForObjects r.1 r.2 s.GrapplableTargets s.ActorsToIgnore

/-- The launch velocities among a list of engine requests, in call order. -/
def Launches : List EngineCall → List FVector
  | [] => []
  | EngineCall.LaunchCharacter v _ _ :: cs => v :: Launches cs
  | _ :: cs => Launches cs

/-- One externally triggered operation on the character, with the engine answers
it sees. `EngineUpdate` is the engine moving the cable component and the body
between two calls. -/
inductive Op where
  | Grapple (w : World)
  | StartGrapple (w : World)
  | StartJump
  | EndJump
  | BreakGrapple
  | StopGrapple
  | SwitchCamera
  | UpdateStartDirection (StartDirectionLocal : Int)
  | AddToGrappableTargets (NewTarget : Nat)
  | AddActorsToIgnore (NewActor : Nat)
  | SetGrappleLength (NewLength : ℚ)
  | SetGrappleAttachSpeed (NewSpeed : ℚ)
  | SetPlayerGrappleSpeed (NewSpeed : ℚ)
  | SetBreakOffGrappleVelocity (NewVelocity : FVector)
  | SetGrappleAcceptanceRadius (NewRadius : ℚ)
  | SetGrappleAcceptedFallDistance (NewDistance : ℚ)
  | EngineUpdate (CableLocation : FVector) (MovementMode : EMovementMode) (Velocity : FVector)

/-- The state after one operation. -/
def step (s : Character) : Op → Character
  | Op.Grapple w => Grapple w s
  | Op.StartGrapple w => StartGrapple w s
  | Op.StartJump => StartJump s
  | Op.EndJump => EndJump s
  | Op.BreakGrapple => BreakGrapple s
  | Op.StopGrapple => StopGrapple s
  | Op.SwitchCamera => SwitchCamera s
  | Op.UpdateStartDirection d => UpdateStartDirection d s
  | Op.AddToGrappableTargets t => AddToGrappableTargets t s
  | Op.AddActorsToIgnore a => AddActorsToIgnore a s
  | Op.SetGrappleLength x => SetGrappleLength x s
  | Op.SetGrappleAttachSpeed x => SetGrappleAttachSpeed x s
  | Op.SetPlayerGrappleSpeed x => SetPlayerGrappleSpeed x s
  | Op.SetBreakOffGrappleVelocity v => SetBreakOffGrappleVelocity v s
  | Op.SetGrappleAcceptanceRadius x => SetGrappleAcceptanceRadius x s
  | Op.SetGrappleAcceptedFallDistance x => SetGrappleAcceptedFallDistance x s
  | Op.EngineUpdate c m v => { s with CableLocation := c, MovementMode := m, Velocity := v }

/-- The state reached from the constructed character by a sequence of operations. -/
def run (ops : List Op) : Character := ops.foldl step initial

/-! ## Concrete inputs used to exercise the theorems -/

/-- A point 500 units ahead of the origin. -/
def pointP : FVector := ⟨500, 0, 0⟩

/-- A world with a 10 ms frame whose object trace always answers `hit`, whose
visibility trace always answers `ground`, where the body is at `loc` and sweeps
are unobstructed. -/
def sampleWorld (hit : Option FVector) (ground : Bool) (loc : FVector) : World where
  DeltaSeconds := 1 / 100
  ActorLocation := loc
  ThirdPersonCameraLocation := ⟨-300, 0, 110⟩
  ThirdPersonCameraForward := ⟨1, 0, 0⟩
  FirstPersonCameraLocation := ⟨0, 0, 64⟩
  FirstPersonCameraForward := ⟨1, 0, 0⟩
  MeshRightVector := ⟨1, 0, 0⟩
  LineTraceSingleForObjects := fun _ _ _ _ => hit
  LineTraceSingleByChannel := fun _ _ => ground
  Sweep := fun _ b => b

/-- A third-person session whose cable is attached at `pointP`, with the given
value of `bArrived`. -/
def attachedAt (arrived : Bool) : Character :=
  { initial with
    bGrappleActive := true
    bGrappleAttached := true
    bArrived := arrived
    AttachLocation := pointP
    CableVisible := true
    CableLocation := pointP
    GrappleTH := some ⟨Method.StartGrapple, 1 / 100, true⟩ }

/-- The start of a third-person session from the constructed character: `Grapple`
hits `pointP`, then seven timer ticks carry the cable there and attach it. -/
def attachingOps : List Op :=
  Op.Grapple (sampleWorld (some pointP) false FVector.zero) ::
    List.replicate 7 (Op.StartGrapple (sampleWorld none false FVector.zero))

/-- The session `attachingOps` followed by one more tick that finds the body within
the acceptance radius of `pointP` with no ground below. -/
def arrivingOps : List Op :=
  attachingOps ++ [Op.StartGrapple (sampleWorld none false ⟨480, 0, 0⟩)]

/-- A world in which the body is 20 units short of `pointP` and stands over
ground. -/
def groundedWorld : World := sampleWorld none true ⟨480, 0, 0⟩

/-- The Idle phase: not active, not attached, cable hidden, no timer. -/
def Idle (s : Character) : Prop :=
  s.bGrappleActive = false ∧ s.bGrappleAttached = false ∧ s.CableVisible = false ∧
    s.GrappleTH = none

/-- The timer behind `GrappleTH` exists exactly when `bGrappleActive` is set. -/
def TimerInv (s : Character) : Prop := s.GrappleTH.isSome = s.bGrappleActive

/-- The arrival test of `MovePlayerToGrappledLocation` succeeds and its downward
probe hits: the body is within `GrappleAcceptanceRadius` of `AttachLocation` and
the visibility trace from the body down by `GrappleAcceptedFallDistance` reports a
blocking hit. -/
def WithinRadiusOverGround (w : World) (s : Character) : Bool :=
  EqualEqual_VectorVector w.ActorLocation s.AttachLocation s.GrappleAcceptanceRadius &&
    w.LineTraceSingleByChannel w.ActorLocation
      (w.ActorLocation.sub ⟨0, 0, s.GrappleAcceptedFallDistance⟩)

/-- The velocity of the launch toward the attach point issued by
`MovePlayerToGrappledLocation`. -/
def travelVelocity (w : World) (s : Character) : FVector :=
  (s.AttachLocation.sub w.ActorLocation).scale (w.DeltaSeconds * s.PlayerGrappleSpeed)

/-- The state after the first `n` timer ticks, the `i`-th tick seeing the engine
answers `W i`. -/
def ticks (W : ℕ → World) : ℕ → Character → Character
  | 0, s => s
  | n + 1, s => StartGrapple (W n) (ticks W n s)

/-- Squared distance between the cable position and `AttachLocation`. -/
def cableDistSq (s : Character) : ℚ := (s.CableLocation.sub s.AttachLocation).SizeSquared

/-- The invariant that an attached cable belongs to an active session. -/
def AttachedInv (s : Character) : Prop := s.bGrappleAttached = true → s.bGrappleActive = true

/-- The state right after a `Grapple` from the constructed character that hits
`pointP`: the cable is travelling. -/
def travelling : Character := Grapple (sampleWorld (some pointP) false FVector.zero) initial

/-- A second point, 200 units above `pointP`. -/
def pointQ : FVector := ⟨500, 0, 200⟩

/-- A world whose third-person camera looks upward along the unit vector
(3/5, 0, 4/5), the mesh right vector being the unit vector (1, 0, 0). -/
def pitchedWorld : World :=
  { sampleWorld none false FVector.zero with ThirdPersonCameraForward := ⟨3 / 5, 0, 4 / 5⟩ }

/-! ## Field lemmas for the cleanup functions -/

theorem ClearGrappleTimer_GrappleTH (s : Character) : (ClearGrappleTimer s).GrappleTH = none := by
  unfold ClearGrappleTimer
  cases h : s.GrappleTH <;> simp [h]

theorem StopGrapple_GrappleTH (s : Character) : (StopGrapple s).GrappleTH = none := by
  have h := ClearGrappleTimer_GrappleTH s
  unfold StopGrapple
  dsimp only
  split <;> simpa using h

theorem StopGrapple_bGrappleActive (s : Character) : (StopGrapple s).bGrappleActive = false := by
  unfold StopGrapple
  dsimp only
  split <;> rfl

theorem StopGrapple_bGrappleAttached (s : Character) :
    (StopGrapple s).bGrappleAttached = false := by
  unfold StopGrapple
  dsimp only
  split <;> rfl

theorem StopGrapple_CableVisible (s : Character) : (StopGrapple s).CableVisible = false := by
  unfold StopGrapple
  dsimp only
  split <;> rfl

theorem StopGrapple_bArrived (s : Character) : (StopGrapple s).bArrived = s.bArrived := by
  unfold StopGrapple ClearGrappleTimer
  dsimp only
  split <;> split <;> rfl

theorem StopGrapple_Calls (s : Character) : (StopGrapple s).Calls = s.Calls := by
  unfold StopGrapple ClearGrappleTimer
  dsimp only
  split <;> split <;> rfl

theorem StopGrapple_AttachLocation (s : Character) :
    (StopGrapple s).AttachLocation = s.AttachLocation := by
  unfold StopGrapple ClearGrappleTimer
  dsimp only
  split <;> split <;> rfl

theorem StopGrapple_bUseControllerRotationYaw (s : Character) :
    (StopGrapple s).bUseControllerRotationYaw =
      (if s.bIsFirstPerson then s.bUseControllerRotationYaw else false) := by
  unfold StopGrapple ClearGrappleTimer
  cases h : s.bIsFirstPerson <;> cases h2 : s.GrappleTH <;> simp [h, h2]

theorem UpdateStartDirection_frame (y : Int) (s : Character) :
    ∃ d, UpdateStartDirection y s = { s with StartDirection := d } := by
  unfold UpdateStartDirection
  split_ifs <;> exact ⟨_, rfl⟩

theorem Launches_append (a b : List EngineCall) : Launches (a ++ b) = Launches a ++ Launches b := by
  induction a with
  | nil => rfl
  | cons c cs ih => cases c <;> simp [Launches, ih]

theorem GrappleRay_isSome (w : World) (s : Character) :
    (GrappleRay w s).isSome = true ↔ (s.bIsFirstPerson = true ∨ s.StartDirection = 0) := by
  unfold GrappleRay
  cases h : s.bIsFirstPerson <;> by_cases h2 : s.StartDirection = 0 <;> simp [h2]

theorem Grapple_of_trace_miss (w : World) (s : Character) (h : GrappleTrace w s = some none) :
    Grapple w s = if s.bGrappleAttached then s else StopGrapple s := by
  unfold GrappleTrace at h
  unfold Grapple
  cases hr : GrappleRay w s with
  | none => simp [hr] at h
  | some r =>
    obtain ⟨a, b⟩ := r
    simp only [hr, Option.map_some', Option.some.injEq] at h
    simp only [h]
    cases s.bGrappleAttached <;> simp

theorem Grapple_of_no_ray (w : World) (s : Character) (h : GrappleTrace w s = none) :
    Grapple w s = s := by
  unfold GrappleTrace at h
  unfold Grapple
  cases hr : GrappleRay w s with
  | none => rfl
  | some r => simp [hr] at h

/-! ## Activation -/

/-- C1: from an Idle state (not active, not attached, cable hidden, no timer), when
`Grapple` produces a ray (first person, or third person aiming forward) and the
trace reports a blocking hit at `P`, the resulting state is active, not attached,
not arrived, has `AttachLocation = P`, a visible cable, and the handle holds one
looping timer of period 0.01 bound to `StartGrapple`. -/
theorem C1_Grapple_hit_from_Idle (w : World) (s : Character) (P : FVector)
    (hIdle : Idle s) (hRay : s.bIsFirstPerson = true ∨ s.StartDirection = 0)
    (hHit : GrappleTrace w s = some (some P)) :
    (Grapple w s).bGrappleActive = true ∧ (Grapple w s).bGrappleAttached = false ∧
      (Grapple w s).bArrived = false ∧ (Grapple w s).AttachLocation = P ∧
      (Grapple w s).CableVisible = true ∧
      (Grapple w s).GrappleTH = some ⟨Method.StartGrapple, 1 / 100, true⟩ := by
  obtain ⟨r, hr⟩ := Option.isSome_iff_exists.mp ((GrappleRay_isSome w s).mpr hRay)
  obtain ⟨a, b⟩ := r
  unfold GrappleTrace at hHit
  simp only [hr, Option.map_some', Option.some.injEq] at hHit
  unfold Grapple
  simp [hr, hHit, hIdle.2.1]

/-- Witness for C1 on the freshly constructed character in a world whose trace
hits `pointP`. -/
theorem C1_Grapple_hit_from_Idle_witness :
    (Grapple (sampleWorld (some pointP) false FVector.zero) initial).bGrappleActive = true ∧
      (Grapple (sampleWorld (some pointP) false FVector.zero) initial).bGrappleAttached = false ∧
      (Grapple (sampleWorld (some pointP) false FVector.zero) initial).bArrived = false ∧
      (Grapple (sampleWorld (some pointP) false FVector.zero) initial).AttachLocation = pointP ∧
      (Grapple (sampleWorld (some pointP) false FVector.zero) initial).CableVisible = true ∧
      (Grapple (sampleWorld (some pointP) false FVector.zero) initial).GrappleTH =
        some ⟨Method.StartGrapple, 1 / 100, true⟩ :=
  C1_Grapple_hit_from_Idle (sampleWorld (some pointP) false FVector.zero) initial pointP
    ⟨rfl, rfl, rfl, rfl⟩ (Or.inr rfl) rfl

/-- C2: from an Idle state, in either view mode and for any aim, when the trace of
`Grapple` reports no hit or no ray is produced, the state after `Grapple` is still
not active, has no timer and an invisible cable (and is still not attached: it is
Idle). -/
theorem C2_Grapple_miss_from_Idle (w : World) (s : Character) (hIdle : Idle s)
    (hMiss : GrappleTrace w s = some none ∨ GrappleTrace w s = none) :
    (Grapple w s).bGrappleActive = false ∧ (Grapple w s).GrappleTH = none ∧
      (Grapple w s).CableVisible = false ∧ Idle (Grapple w s) := by
  have h : Idle (Grapple w s) := by
    rcases hMiss with h | h
    · rw [Grapple_of_trace_miss w s h, hIdle.2.1]
      exact ⟨StopGrapple_bGrappleActive s, StopGrapple_bGrappleAttached s,
        StopGrapple_CableVisible s, StopGrapple_GrappleTH s⟩
    · rw [Grapple_of_no_ray w s h]
      exact hIdle
  exact ⟨h.1, h.2.2.2, h.2.2.1, h⟩

/-- Witness for C2 on the freshly constructed character in a world whose trace
finds nothing. -/
theorem C2_Grapple_miss_from_Idle_witness :
    (Grapple (sampleWorld none false FVector.zero) initial).bGrappleActive = false ∧
      (Grapple (sampleWorld none false FVector.zero) initial).GrappleTH = none ∧
      (Grapple (sampleWorld none false FVector.zero) initial).CableVisible = false ∧
      Idle (Grapple (sampleWorld none false FVector.zero) initial) :=
  C2_Grapple_miss_from_Idle (sampleWorld none false FVector.zero) initial
    ⟨rfl, rfl, rfl, rfl⟩ (Or.inl rfl)

/-- C3: in third person with an aim bucket other than 0, `Grapple` produces no ray
(so no trace is made, whatever the world would answer) and returns the state
unchanged in every field, timer included. -/
theorem C3_Grapple_third_person_off_aim (w : World) (s : Character)
    (hThird : s.bIsFirstPerson = false) (hAim : s.StartDirection ≠ 0) :
    GrappleRay w s = none ∧ GrappleTrace w s = none ∧ Grapple w s = s := by
  have hr : GrappleRay w s = none := by
    unfold GrappleRay
    simp [hThird, hAim]
  have ht : GrappleTrace w s = none := by
    unfold GrappleTrace
    rw [hr]
    rfl
  exact ⟨hr, ht, Grapple_of_no_ray w s ht⟩

/-- Witness for C3: an attached third-person session aiming in the 45 degree
bucket, in a world whose trace would hit. -/
theorem C3_Grapple_third_person_off_aim_witness :
    GrappleRay (sampleWorld (some pointP) false FVector.zero)
        { attachedAt false with StartDirection := 45 } = none ∧
      GrappleTrace (sampleWorld (some pointP) false FVector.zero)
        { attachedAt false with StartDirection := 45 } = none ∧
      Grapple (sampleWorld (some pointP) false FVector.zero)
        { attachedAt false with StartDirection := 45 } =
        { attachedAt false with StartDirection := 45 } :=
  C3_Grapple_third_person_off_aim (sampleWorld (some pointP) false FVector.zero)
    { attachedAt false with StartDirection := 45 } rfl (by decide)

/-- C4: when `Grapple` produces a ray and the trace misses, the result is
`StopGrapple` of the state if `bGrappleAttached` is false, and the state itself,
unchanged in every field, if `bGrappleAttached` is true. -/
theorem C4_Grapple_miss (w : World) (s : Character) (hMiss : GrappleTrace w s = some none) :
    (s.bGrappleAttached = false → Grapple w s = StopGrapple s) ∧
      (s.bGrappleAttached = true → Grapple w s = s) := by
  rw [Grapple_of_trace_miss w s hMiss]
  constructor <;> intro h <;> simp [h]

/-- Witness for C4 on an attached session in a world whose trace finds nothing. -/
theorem C4_Grapple_miss_witness :
    ((attachedAt false).bGrappleAttached = false →
        Grapple (sampleWorld none false FVector.zero) (attachedAt false) =
          StopGrapple (attachedAt false)) ∧
      ((attachedAt false).bGrappleAttached = true →
        Grapple (sampleWorld none false FVector.zero) (attachedAt false) = attachedAt false) :=
  C4_Grapple_miss (sampleWorld none false FVector.zero) (attachedAt false) rfl

/-! ## The timer exists exactly while the grapple is active -/

theorem StopGrapple_TimerInv (s : Character) : TimerInv (StopGrapple s) := by
  unfold TimerInv
  rw [StopGrapple_GrappleTH, StopGrapple_bGrappleActive]
  rfl

theorem BreakGrapple_TimerInv (s : Character) : TimerInv (BreakGrapple s) :=
  StopGrapple_TimerInv _

theorem Grapple_TimerInv (w : World) (s : Character) (h : TimerInv s) :
    TimerInv (Grapple w s) := by
  unfold Grapple
  split
  · exact h
  · split
    · rfl
    · split
      · exact StopGrapple_TimerInv s
      · exact h

theorem MovePlayerToGrappledLocation_TimerInv (w : World) (s : Character) (h : TimerInv s) :
    TimerInv (MovePlayerToGrappledLocation w s) := by
  unfold MovePlayerToGrappledLocation
  dsimp only
  split
  · exact h
  · split
    · split
      · exact BreakGrapple_TimerInv _
      · exact h
    · exact h

theorem StartGrapple_TimerInv (w : World) (s : Character) (h : TimerInv s) :
    TimerInv (StartGrapple w s) := by
  unfold StartGrapple
  split
  · split
    · exact MovePlayerToGrappledLocation_TimerInv w s h
    · unfold MoveGrappleTo
      split <;> exact h
  · rename_i hna
    unfold TimerInv
    rw [ClearGrappleTimer_GrappleTH]
    unfold ClearGrappleTimer
    split <;> simp [hna]

theorem StartJump_TimerInv (s : Character) (h : TimerInv s) : TimerInv (StartJump s) := by
  unfold StartJump HandleThirdPersonAnimJump
  dsimp only
  split
  · exact StopGrapple_TimerInv s
  · split <;> split <;> first | exact BreakGrapple_TimerInv s | exact h

theorem step_TimerInv (s : Character) (op : Op) (h : TimerInv s) : TimerInv (step s op) := by
  cases op with
  | Grapple w => exact Grapple_TimerInv w s h
  | StartGrapple w => exact StartGrapple_TimerInv w s h
  | StartJump => exact StartJump_TimerInv s h
  | EndJump =>
    simp only [step, EndJump, HandleThirdPersonAnimJump]
    split <;> exact h
  | BreakGrapple => exact BreakGrapple_TimerInv s
  | StopGrapple => exact StopGrapple_TimerInv s
  | SwitchCamera =>
    simp only [step, SwitchCamera]
    split <;> exact h
  | UpdateStartDirection d =>
    obtain ⟨b, hb⟩ := UpdateStartDirection_frame d s
    rw [show step s (Op.UpdateStartDirection d) = UpdateStartDirection d s from rfl, hb]
    exact h
  | _ => exact h

theorem foldl_TimerInv (ops : List Op) (s : Character) (h : TimerInv s) :
    TimerInv (ops.foldl step s) := by
  induction ops generalizing s with
  | nil => exact h
  | cons op ops ih => exact ih _ (step_TimerInv s op h)

/-- C5: in every state reached from the constructed character by any sequence of
`Grapple`, timer ticks (`StartGrapple`), `StartJump`, `BreakGrapple`, `StopGrapple`
and the configuration setters (and also `EndJump`, `SwitchCamera`,
`UpdateStartDirection` and engine updates of the body and cable), the timer behind
`GrappleTH` exists if and only if `bGrappleActive` is true. -/
theorem C5_timer_exists_iff_active (ops : List Op) :
    (run ops).GrappleTH.isSome = true ↔ (run ops).bGrappleActive = true := by
  have h : TimerInv (run ops) := foldl_TimerInv ops initial rfl
  unfold TimerInv at h
  rw [h]

/-! ## Two concrete sessions -/

theorem run_attachingOps :
    run attachingOps = { attachedAt false with CableLocation := ⟨7875 / 16, 0, 0⟩ } := by
  simp [run, attachingOps, step, List.replicate, Grapple, GrappleRay, initial, sampleWorld,
    StartGrapple, MoveGrappleTo, VSizeLE, VInterpTo, FVector.sub, FVector.add, FVector.scale,
    FVector.SizeSquared, Clamp, pointP, FVector.zero, attachedAt]
  norm_num

theorem run_arrivingOps :
    run arrivingOps =
      { attachedAt true with Calls := [EngineCall.LaunchCharacter ⟨50, 0, 0⟩ true true] } := by
  have h : run arrivingOps =
      StartGrapple (sampleWorld none false ⟨480, 0, 0⟩) (run attachingOps) := by
    simp [run, arrivingOps, step]
  rw [h, run_attachingOps]
  simp [initial, sampleWorld, StartGrapple, VInterpTo, FVector.sub, FVector.add, FVector.scale,
    FVector.SizeSquared, Clamp, pointP, FVector.zero, attachedAt, MovePlayerToGrappledLocation,
    EqualEqual_VectorVector, LaunchCharacter, abs_le]
  norm_num

/-! ## Stopping, cancelling and breaking -/

/-- C6: for every state, `StopGrapple` yields a state with no timer, not active, not
attached and an invisible cable; `bUseControllerRotationYaw` becomes false in
third person and keeps its value in first person. -/
theorem C6_StopGrapple_effect (s : Character) :
    (StopGrapple s).GrappleTH = none ∧ (StopGrapple s).bGrappleActive = false ∧
      (StopGrapple s).bGrappleAttached = false ∧ (StopGrapple s).CableVisible = false ∧
      (StopGrapple s).bUseControllerRotationYaw =
        (if s.bIsFirstPerson then s.bUseControllerRotationYaw else false) :=
  ⟨StopGrapple_GrappleTH s, StopGrapple_bGrappleActive s, StopGrapple_bGrappleAttached s,
    StopGrapple_CableVisible s, StopGrapple_bUseControllerRotationYaw s⟩

/-- C7, as stated, fails: in the state reached by the session `arrivingOps`, where
`bArrived` is true, `StopGrapple` ends the session and `bArrived` is still true, and
the same holds after `BreakGrapple`. -/
theorem C7_counterexample :
    (run arrivingOps).bArrived = true ∧
      (StopGrapple (run arrivingOps)).bGrappleActive = false ∧
      (StopGrapple (run arrivingOps)).bArrived = true ∧
      (BreakGrapple (run arrivingOps)).bGrappleActive = false ∧
      (BreakGrapple (run arrivingOps)).bArrived = true := by
  have h : (run arrivingOps).bArrived = true := by
    rw [run_arrivingOps]
    rfl
  refine ⟨h, StopGrapple_bGrappleActive _, ?_, StopGrapple_bGrappleActive _, ?_⟩
  · rw [StopGrapple_bArrived, h]
  · unfold BreakGrapple
    rw [StopGrapple_bArrived]
    exact h

/-- C7, amended: for every state, after `StopGrapple`, and after `BreakGrapple`,
`bGrappleActive` and `bGrappleAttached` are false and `bArrived` keeps the value it
had before. -/
theorem C7_StopGrapple_session_flags (s : Character) :
    ((StopGrapple s).bGrappleActive = false ∧ (StopGrapple s).bGrappleAttached = false ∧
        (StopGrapple s).bArrived = s.bArrived) ∧
      ((BreakGrapple s).bGrappleActive = false ∧ (BreakGrapple s).bGrappleAttached = false ∧
        (BreakGrapple s).bArrived = s.bArrived) := by
  refine ⟨⟨StopGrapple_bGrappleActive s, StopGrapple_bGrappleAttached s,
    StopGrapple_bArrived s⟩, StopGrapple_bGrappleActive _, StopGrapple_bGrappleAttached _, ?_⟩
  unfold BreakGrapple
  rw [StopGrapple_bArrived]
  rfl

/-- C8: for every state with `bGrappleActive` true and `bArrived` false, `StartJump`
is exactly `StopGrapple`: the timer is cleared, the session is neither active nor
attached, the cable is invisible, and no request at all reaches the body (no
`LaunchCharacter`, no `Jump`); velocity and movement mode are untouched. -/
theorem C8_StartJump_cancels_before_arrival (s : Character)
    (hActive : s.bGrappleActive = true) (hArrived : s.bArrived = false) :
    StartJump s = StopGrapple s ∧ (StartJump s).GrappleTH = none ∧
      (StartJump s).bGrappleActive = false ∧ (StartJump s).bGrappleAttached = false ∧
      (StartJump s).CableVisible = false ∧ (StartJump s).Calls = s.Calls ∧
      Launches (StartJump s).Calls = Launches s.Calls := by
  have h : StartJump s = StopGrapple s := by
    unfold StartJump
    simp [hActive, hArrived]
  rw [h]
  exact ⟨rfl, StopGrapple_GrappleTH s, StopGrapple_bGrappleActive s,
    StopGrapple_bGrappleAttached s, StopGrapple_CableVisible s, StopGrapple_Calls s,
    by rw [StopGrapple_Calls]⟩

/-- Witness for C8 on an attached session that has not arrived. -/
theorem C8_StartJump_cancels_before_arrival_witness :
    StartJump (attachedAt false) = StopGrapple (attachedAt false) ∧
      (StartJump (attachedAt false)).GrappleTH = none ∧
      (StartJump (attachedAt false)).bGrappleActive = false ∧
      (StartJump (attachedAt false)).bGrappleAttached = false ∧
      (StartJump (attachedAt false)).CableVisible = false ∧
      (StartJump (attachedAt false)).Calls = (attachedAt false).Calls ∧
      Launches (StartJump (attachedAt false)).Calls = Launches (attachedAt false).Calls :=
  C8_StartJump_cancels_before_arrival (attachedAt false) rfl rfl

theorem BreakGrapple_Calls (s : Character) :
    (BreakGrapple s).Calls =
      s.Calls ++ [EngineCall.LaunchCharacter s.BreakOffGrappleVelocity false false] := by
  unfold BreakGrapple
  rw [StopGrapple_Calls]
  rfl

theorem HandleThirdPersonAnimJump_Launches (b : Bool) (s : Character) :
    Launches (HandleThirdPersonAnimJump b s).Calls = Launches s.Calls := by
  unfold HandleThirdPersonAnimJump
  split <;> simp [Launches_append, Launches]

/-- C9: for every state with `bGrappleActive` and `bArrived` both true, `StartJump`
issues exactly one `LaunchCharacter`, with velocity `BreakOffGrappleVelocity`, and
leaves the session Idle: no timer, not active, not attached, cable invisible. -/
theorem C9_StartJump_breaks_after_arrival (s : Character)
    (hActive : s.bGrappleActive = true) (hArrived : s.bArrived = true) :
    Launches (StartJump s).Calls = Launches s.Calls ++ [s.BreakOffGrappleVelocity] ∧
      (StartJump s).GrappleTH = none ∧ (StartJump s).bGrappleActive = false ∧
      (StartJump s).bGrappleAttached = false ∧ (StartJump s).CableVisible = false := by
  have hJ : StartJump s = HandleThirdPersonAnimJump true
      { BreakGrapple s with Calls := (BreakGrapple s).Calls ++ [EngineCall.Jump] } := by
    unfold StartJump
    simp [hActive, hArrived]
  have hStop := fun t => And.intro (StopGrapple_GrappleTH t)
    (And.intro (StopGrapple_bGrappleActive t)
      (And.intro (StopGrapple_bGrappleAttached t) (StopGrapple_CableVisible t)))
  rw [hJ]
  refine ⟨?_, ?_⟩
  · rw [HandleThirdPersonAnimJump_Launches]
    simp [BreakGrapple_Calls, Launches_append, Launches]
  · obtain ⟨h1, h2, h3, h4⟩ := hStop (LaunchCharacter s.BreakOffGrappleVelocity false false s)
    unfold HandleThirdPersonAnimJump
    dsimp only
    split <;> exact ⟨h1, h2, h3, h4⟩

/-- Witness for C9 on an attached session that has arrived. -/
theorem C9_StartJump_breaks_after_arrival_witness :
    Launches (StartJump (attachedAt true)).Calls =
        Launches (attachedAt true).Calls ++ [(attachedAt true).BreakOffGrappleVelocity] ∧
      (StartJump (attachedAt true)).GrappleTH = none ∧
      (StartJump (attachedAt true)).bGrappleActive = false ∧
      (StartJump (attachedAt true)).bGrappleAttached = false ∧
      (StartJump (attachedAt true)).CableVisible = false :=
  C9_StartJump_breaks_after_arrival (attachedAt true) rfl rfl

/-! ## Automatic release near the ground -/

/-- C10, as stated, fails in two ways. In the attached, not yet arrived state
reached by `attachingOps`, a tick with the body within the acceptance radius and
ground under the probe ends Idle but issues two launches, the travel launch and
the break-off launch. In the attached, arrived third-person state reached by
`arrivingOps`, the same tick issues no launch and the session stays active with
its timer. -/
theorem C10_counterexample :
    ((run attachingOps).bGrappleActive = true ∧ (run attachingOps).bGrappleAttached = true ∧
        WithinRadiusOverGround groundedWorld (run attachingOps) = true ∧
        Launches (run attachingOps).Calls = [] ∧
        (StartGrapple groundedWorld (run attachingOps)).bGrappleActive = false ∧
        Launches (StartGrapple groundedWorld (run attachingOps)).Calls =
          [⟨50, 0, 0⟩, ⟨0, 0, 750⟩]) ∧
      ((run arrivingOps).bGrappleActive = true ∧ (run arrivingOps).bGrappleAttached = true ∧
        WithinRadiusOverGround groundedWorld (run arrivingOps) = true ∧
        (StartGrapple groundedWorld (run arrivingOps)).bGrappleActive = true ∧
        (StartGrapple groundedWorld (run arrivingOps)).GrappleTH =
          some ⟨Method.StartGrapple, 1 / 100, true⟩ ∧
        Launches (StartGrapple groundedWorld (run arrivingOps)).Calls =
          Launches (run arrivingOps).Calls) := by
  rw [run_attachingOps, run_arrivingOps]
  refine ⟨⟨rfl, rfl, ?_, rfl, ?_, ?_⟩, rfl, rfl, ?_, ?_, ?_, ?_⟩
  · simp [WithinRadiusOverGround, groundedWorld, sampleWorld, EqualEqual_VectorVector, attachedAt,
      initial, pointP, abs_le]
    norm_num
  · simp [groundedWorld, initial, sampleWorld, StartGrapple, pointP, attachedAt,
      MovePlayerToGrappledLocation, EqualEqual_VectorVector, LaunchCharacter, abs_le,
      BreakGrapple, StopGrapple, ClearGrappleTimer]
    norm_num
  · simp [groundedWorld, initial, sampleWorld, StartGrapple, pointP, attachedAt,
      MovePlayerToGrappledLocation, EqualEqual_VectorVector, LaunchCharacter, abs_le,
      BreakGrapple, StopGrapple, ClearGrappleTimer, FVector.sub, FVector.scale, Launches]
    norm_num [Launches]
  · simp [WithinRadiusOverGround, groundedWorld, sampleWorld, EqualEqual_VectorVector, attachedAt,
      initial, pointP, abs_le]
    norm_num
  · simp [groundedWorld, initial, sampleWorld, StartGrapple, attachedAt,
      MovePlayerToGrappledLocation]
  · simp [groundedWorld, initial, sampleWorld, StartGrapple, attachedAt,
      MovePlayerToGrappledLocation]
  · simp [groundedWorld, initial, sampleWorld, StartGrapple, attachedAt,
      MovePlayerToGrappledLocation]

theorem MovePlayerToGrappledLocation_release (w : World) (s : Character)
    (hNoHover : s.bArrived = false ∨ s.bIsFirstPerson = true)
    (hClose : WithinRadiusOverGround w s = true) :
    MovePlayerToGrappledLocation w s =
      BreakGrapple (LaunchCharacter (travelVelocity w s) true true s) := by
  unfold WithinRadiusOverGround at hClose
  rw [Bool.and_eq_true] at hClose
  obtain ⟨h1, h2⟩ := hClose
  have hc : (s.bGrappleActive && s.bArrived && !s.bIsFirstPerson) = false := by
    rcases hNoHover with h | h <;> simp [h]
  unfold MovePlayerToGrappledLocation
  simp only [hc, travelVelocity]
  simp [LaunchCharacter, h1, h2]

theorem MovePlayerToGrappledLocation_hover (w : World) (s : Character)
    (hActive : s.bGrappleActive = true) (hArrived : s.bArrived = true)
    (hThird : s.bIsFirstPerson = false) :
    MovePlayerToGrappledLocation w s =
      { s with
        MovementMode := EMovementMode.MOVE_Flying
        bUseControllerRotationYaw := true
        Velocity := FVector.zero } := by
  unfold MovePlayerToGrappledLocation
  simp [hActive, hArrived, hThird]

/-- C10, amended: take a timer tick in the CableAttached phase (active and attached)
in which the body is within `GrappleAcceptanceRadius` of the attach point and the
downward probe of length `GrappleAcceptedFallDistance` would hit ground. Unless the
session is third person with `bArrived` already true, the tick issues the travel
launch toward the attach point, then exactly one break-off launch with
`BreakOffGrappleVelocity`, and ends Idle (timer cleared, not active, not attached,
cable invisible). In third person with `bArrived` already true the tick holds the
hover instead: no launch is issued and the session stays active with its timer. -/
theorem C10_tick_release_near_ground (w : World) (s : Character)
    (hActive : s.bGrappleActive = true) (hAttached : s.bGrappleAttached = true)
    (hClose : WithinRadiusOverGround w s = true) :
    (s.bArrived = false ∨ s.bIsFirstPerson = true →
        Launches (StartGrapple w s).Calls =
          Launches s.Calls ++ [travelVelocity w s, s.BreakOffGrappleVelocity] ∧
        (StartGrapple w s).GrappleTH = none ∧ (StartGrapple w s).bGrappleActive = false ∧
        (StartGrapple w s).bGrappleAttached = false ∧
        (StartGrapple w s).CableVisible = false) ∧
      (s.bArrived = true ∧ s.bIsFirstPerson = false →
        Launches (StartGrapple w s).Calls = Launches s.Calls ∧
        (StartGrapple w s).GrappleTH = s.GrappleTH ∧
        (StartGrapple w s).bGrappleActive = true) := by
  have hS : StartGrapple w s =
      { MovePlayerToGrappledLocation w s with
        CableLocation := w.Sweep (MovePlayerToGrappledLocation w s).CableLocation
          (VInterpTo (MovePlayerToGrappledLocation w s).CableLocation
            (MovePlayerToGrappledLocation w s).AttachLocation w.DeltaSeconds
            (MovePlayerToGrappledLocation w s).PlayerGrappleSpeed) } := by
    unfold StartGrapple
    simp [hActive, hAttached]
  constructor
  · intro hNoHover
    rw [hS, MovePlayerToGrappledLocation_release w s hNoHover hClose]
    dsimp only
    refine ⟨?_, StopGrapple_GrappleTH _, StopGrapple_bGrappleActive _,
      StopGrapple_bGrappleAttached _, StopGrapple_CableVisible _⟩
    rw [BreakGrapple_Calls]
    simp [LaunchCharacter, Launches_append, Launches]
  · intro hHover
    rw [hS, MovePlayerToGrappledLocation_hover w s hActive hHover.1 hHover.2]
    exact ⟨rfl, rfl, hActive⟩

/-- Witness for C10 on an attached, not yet arrived session with the body 20 units
short of the attach point and standing over ground. -/
theorem C10_tick_release_near_ground_witness :
    (attachedAt false).bGrappleActive = true ∧ (attachedAt false).bGrappleAttached = true ∧
      WithinRadiusOverGround groundedWorld (attachedAt false) = true ∧
      Launches (StartGrapple groundedWorld (attachedAt false)).Calls =
        Launches (attachedAt false).Calls ++
          [travelVelocity groundedWorld (attachedAt false),
            (attachedAt false).BreakOffGrappleVelocity] ∧
      (StartGrapple groundedWorld (attachedAt false)).bGrappleActive = false := by
  have hClose : WithinRadiusOverGround groundedWorld (attachedAt false) = true := by
    simp [WithinRadiusOverGround, groundedWorld, sampleWorld, EqualEqual_VectorVector, attachedAt,
      initial, pointP, abs_le]
    norm_num
  have h := (C10_tick_release_near_ground groundedWorld (attachedAt false) rfl rfl hClose).1
    (Or.inl rfl)
  exact ⟨rfl, rfl, hClose, h.1, h.2.2.1⟩

/-! ## Arrival without ground below -/

theorem StartGrapple_attached (w : World) (s : Character)
    (hActive : s.bGrappleActive = true) (hAttached : s.bGrappleAttached = true) :
    StartGrapple w s =
      { MovePlayerToGrappledLocation w s with
        CableLocation := w.Sweep (MovePlayerToGrappledLocation w s).CableLocation
          (VInterpTo (MovePlayerToGrappledLocation w s).CableLocation
            (MovePlayerToGrappledLocation w s).AttachLocation w.DeltaSeconds
            (MovePlayerToGrappledLocation w s).PlayerGrappleSpeed) } := by
  unfold StartGrapple
  simp [hActive, hAttached]

theorem StartGrapple_travelling (w : World) (s : Character)
    (hActive : s.bGrappleActive = true) (hAttached : s.bGrappleAttached = false) :
    StartGrapple w s = MoveGrappleTo w s := by
  unfold StartGrapple
  simp [hActive, hAttached]

theorem MovePlayerToGrappledLocation_bArrived (w : World) (s : Character)
    (h : s.bArrived = true) : (MovePlayerToGrappledLocation w s).bArrived = true := by
  unfold MovePlayerToGrappledLocation
  dsimp only
  split
  · exact h
  · split
    · split
      · unfold BreakGrapple
        rw [StopGrapple_bArrived]
        exact h
      · rfl
    · exact h

theorem StartGrapple_bArrived (w : World) (s : Character) (h : s.bArrived = true) :
    (StartGrapple w s).bArrived = true := by
  unfold StartGrapple
  split
  · split
    · exact MovePlayerToGrappledLocation_bArrived w s h
    · unfold MoveGrappleTo
      split <;> exact h
  · unfold ClearGrappleTimer
    split <;> exact h

theorem ticks_bArrived (W : ℕ → World) (n : ℕ) (s : Character) (h : s.bArrived = true) :
    (ticks W n s).bArrived = true := by
  induction n with
  | zero => exact h
  | succ n ih => exact StartGrapple_bArrived (W n) _ ih

theorem MovePlayerToGrappledLocation_arrive (w : World) (s : Character)
    (hWithin : EqualEqual_VectorVector w.ActorLocation s.AttachLocation
      s.GrappleAcceptanceRadius = true)
    (hProbe : w.LineTraceSingleByChannel w.ActorLocation
      (w.ActorLocation.sub ⟨0, 0, s.GrappleAcceptedFallDistance⟩) = false) :
    (MovePlayerToGrappledLocation w s).bArrived = true ∧
      (MovePlayerToGrappledLocation w s).bGrappleActive = s.bGrappleActive ∧
      (MovePlayerToGrappledLocation w s).bGrappleAttached = s.bGrappleAttached ∧
      (MovePlayerToGrappledLocation w s).bIsFirstPerson = s.bIsFirstPerson := by
  unfold MovePlayerToGrappledLocation
  dsimp only
  split
  · rename_i hc
    simp only [Bool.and_eq_true] at hc
    exact ⟨hc.1.2, rfl, rfl, rfl⟩
  · simp [LaunchCharacter, hWithin, hProbe]

/-- C11: take a timer tick in the CableAttached phase (active and attached) in which
the body is within `GrappleAcceptanceRadius` of the attach point and the downward
probe misses. After it `bArrived` is true and the session is still active;
`bArrived` is still true after any number of further timer ticks, whatever the
engine answers; and in third person the very next tick sets the movement mode to
Flying and the velocity to zero and issues no launch. -/
theorem C11_arrival_without_ground (w : World) (s : Character)
    (hActive : s.bGrappleActive = true) (hAttached : s.bGrappleAttached = true)
    (hWithin : EqualEqual_VectorVector w.ActorLocation s.AttachLocation
      s.GrappleAcceptanceRadius = true)
    (hProbe : w.LineTraceSingleByChannel w.ActorLocation
      (w.ActorLocation.sub ⟨0, 0, s.GrappleAcceptedFallDistance⟩) = false) :
    (StartGrapple w s).bArrived = true ∧ (StartGrapple w s).bGrappleActive = true ∧
      (∀ (W : ℕ → World) (n : ℕ), (ticks W n (StartGrapple w s)).bArrived = true) ∧
      (s.bIsFirstPerson = false → ∀ w2 : World,
        (StartGrapple w2 (StartGrapple w s)).MovementMode = EMovementMode.MOVE_Flying ∧
        (StartGrapple w2 (StartGrapple w s)).Velocity = FVector.zero ∧
        Launches (StartGrapple w2 (StartGrapple w s)).Calls =
          Launches (StartGrapple w s).Calls) := by
  obtain ⟨h1, h2, h3, h4⟩ := MovePlayerToGrappledLocation_arrive w s hWithin hProbe
  have hArr : (StartGrapple w s).bArrived = true := by
    rw [StartGrapple_attached w s hActive hAttached]
    exact h1
  have hAct : (StartGrapple w s).bGrappleActive = true := by
    rw [StartGrapple_attached w s hActive hAttached]
    exact h2.trans hActive
  have hAtt : (StartGrapple w s).bGrappleAttached = true := by
    rw [StartGrapple_attached w s hActive hAttached]
    exact h3.trans hAttached
  have hView : (StartGrapple w s).bIsFirstPerson = s.bIsFirstPerson := by
    rw [StartGrapple_attached w s hActive hAttached]
    exact h4
  refine ⟨hArr, hAct, fun W n => ticks_bArrived W n _ hArr, ?_⟩
  intro hThird w2
  rw [StartGrapple_attached w2 _ hAct hAtt,
    MovePlayerToGrappledLocation_hover w2 _ hAct hArr (hView.trans hThird)]
  exact ⟨rfl, rfl, rfl⟩

/-- Witness for C11 on an attached third-person session with the body 20 units
short of the attach point and nothing below it. -/
theorem C11_arrival_without_ground_witness :
    (StartGrapple (sampleWorld none false ⟨480, 0, 0⟩) (attachedAt false)).bArrived = true ∧
      (StartGrapple (sampleWorld none false ⟨480, 0, 0⟩) (attachedAt false)).bGrappleActive
        = true ∧
      (∀ (W : ℕ → World) (n : ℕ),
        (ticks W n (StartGrapple (sampleWorld none false ⟨480, 0, 0⟩)
          (attachedAt false))).bArrived = true) ∧
      ((attachedAt false).bIsFirstPerson = false → ∀ w2 : World,
        (StartGrapple w2 (StartGrapple (sampleWorld none false ⟨480, 0, 0⟩)
          (attachedAt false))).MovementMode = EMovementMode.MOVE_Flying ∧
        (StartGrapple w2 (StartGrapple (sampleWorld none false ⟨480, 0, 0⟩)
          (attachedAt false))).Velocity = FVector.zero ∧
        Launches (StartGrapple w2 (StartGrapple (sampleWorld none false ⟨480, 0, 0⟩)
          (attachedAt false))).Calls =
          Launches (StartGrapple (sampleWorld none false ⟨480, 0, 0⟩)
            (attachedAt false)).Calls) :=
  C11_arrival_without_ground (sampleWorld none false ⟨480, 0, 0⟩) (attachedAt false) rfl rfl
    (by
      simp [sampleWorld, EqualEqual_VectorVector, attachedAt, initial, pointP, abs_le]
      norm_num)
    rfl

/-! ## No way back from attached to travelling -/

theorem HandleThirdPersonAnimJump_bGrappleActive (b : Bool) (s : Character) :
    (HandleThirdPersonAnimJump b s).bGrappleActive = s.bGrappleActive := by
  unfold HandleThirdPersonAnimJump
  split <;> rfl

theorem HandleThirdPersonAnimJump_bGrappleAttached (b : Bool) (s : Character) :
    (HandleThirdPersonAnimJump b s).bGrappleAttached = s.bGrappleAttached := by
  unfold HandleThirdPersonAnimJump
  split <;> rfl

theorem MovePlayerToGrappledLocation_flags (w : World) (s : Character) :
    ((MovePlayerToGrappledLocation w s).bGrappleActive = false ∧
        (MovePlayerToGrappledLocation w s).bGrappleAttached = false) ∨
      ((MovePlayerToGrappledLocation w s).bGrappleActive = s.bGrappleActive ∧
        (MovePlayerToGrappledLocation w s).bGrappleAttached = s.bGrappleAttached) := by
  unfold MovePlayerToGrappledLocation
  dsimp only
  split
  · exact Or.inr ⟨rfl, rfl⟩
  · split
    · split
      · exact Or.inl ⟨StopGrapple_bGrappleActive _, StopGrapple_bGrappleAttached _⟩
      · exact Or.inr ⟨rfl, rfl⟩
    · exact Or.inr ⟨rfl, rfl⟩

theorem ClearGrappleTimer_flags (s : Character) :
    (ClearGrappleTimer s).bGrappleActive = s.bGrappleActive ∧
      (ClearGrappleTimer s).bGrappleAttached = s.bGrappleAttached := by
  unfold ClearGrappleTimer
  split <;> exact ⟨rfl, rfl⟩

theorem StartGrapple_inactive (w : World) (s : Character) (hActive : s.bGrappleActive = false) :
    StartGrapple w s = ClearGrappleTimer s := by
  unfold StartGrapple
  simp [hActive]

theorem StartJump_flags (s : Character) :
    ((StartJump s).bGrappleActive = false ∧ (StartJump s).bGrappleAttached = false) ∨
      ((StartJump s).bGrappleActive = s.bGrappleActive ∧
        (StartJump s).bGrappleAttached = s.bGrappleAttached ∧ s.bGrappleActive = false) := by
  unfold StartJump
  dsimp only
  split
  · exact Or.inl ⟨StopGrapple_bGrappleActive s, StopGrapple_bGrappleAttached s⟩
  · rename_i h1
    rw [HandleThirdPersonAnimJump_bGrappleActive, HandleThirdPersonAnimJump_bGrappleAttached]
    split
    · exact Or.inl ⟨StopGrapple_bGrappleActive _, StopGrapple_bGrappleAttached _⟩
    · rename_i h2
      refine Or.inr ⟨rfl, rfl, ?_⟩
      cases ha : s.bGrappleActive <;> cases hb : s.bArrived <;> simp [ha, hb] at h1 h2 ⊢

/-- C12: from a state with `bGrappleActive` and `bGrappleAttached` both true, every
single operation (`Grapple` with any trace outcome, a timer tick, `StartJump`,
`EndJump`, `BreakGrapple`, `StopGrapple`, `SwitchCamera`, `UpdateStartDirection`,
any setter, an engine update) leads to a state that is either not active or still
attached: the travelling phase (active, not attached) is not re-entered. -/
theorem C12_no_backward_transition (s : Character) (op : Op)
    (hActive : s.bGrappleActive = true) (hAttached : s.bGrappleAttached = true) :
    (step s op).bGrappleActive = false ∨ (step s op).bGrappleAttached = true := by
  cases op with
  | Grapple w =>
    right
    simp only [step]
    unfold Grapple
    split
    · exact hAttached
    · split
      · exact hAttached
      · simp [hAttached]
  | StartGrapple w =>
    simp only [step]
    rw [StartGrapple_attached w s hActive hAttached]
    rcases MovePlayerToGrappledLocation_flags w s with h | h
    · exact Or.inl h.1
    · exact Or.inr (h.2.trans hAttached)
  | StartJump =>
    simp only [step]
    rcases StartJump_flags s with h | h
    · exact Or.inl h.1
    · exact Or.inr (h.2.1.trans hAttached)
  | EndJump =>
    right
    simp only [step, EndJump]
    rw [HandleThirdPersonAnimJump_bGrappleAttached]
    exact hAttached
  | BreakGrapple => exact Or.inl (StopGrapple_bGrappleActive _)
  | StopGrapple => exact Or.inl (StopGrapple_bGrappleActive _)
  | SwitchCamera =>
    right
    simp only [step, SwitchCamera]
    split <;> exact hAttached
  | UpdateStartDirection d =>
    right
    obtain ⟨b, hb⟩ := UpdateStartDirection_frame d s
    rw [show step s (Op.UpdateStartDirection d) = UpdateStartDirection d s from rfl, hb]
    exact hAttached
  | _ => exact Or.inr hAttached

/-- Witness for C12: a `Grapple` that hits a new point during an attached session
leaves the session attached. -/
theorem C12_no_backward_transition_witness :
    (step (attachedAt true) (Op.Grapple (sampleWorld (some pointQ) false FVector.zero))).bGrappleActive
        = false ∨
      (step (attachedAt true)
        (Op.Grapple (sampleWorld (some pointQ) false FVector.zero))).bGrappleAttached = true :=
  C12_no_backward_transition (attachedAt true)
    (Op.Grapple (sampleWorld (some pointQ) false FVector.zero)) rfl rfl

/-! ## An attached cable belongs to an active session -/

theorem StartGrapple_AttachedInv (w : World) (s : Character) (h : AttachedInv s) :
    AttachedInv (StartGrapple w s) := by
  intro h2
  cases ha : s.bGrappleActive with
  | false =>
    rw [StartGrapple_inactive w s ha] at h2 ⊢
    rw [(ClearGrappleTimer_flags s).2] at h2
    rw [(ClearGrappleTimer_flags s).1]
    exact h h2
  | true =>
    cases hb : s.bGrappleAttached with
    | true =>
      rw [StartGrapple_attached w s ha hb] at h2 ⊢
      rcases MovePlayerToGrappledLocation_flags w s with h3 | h3
      · exact absurd (h3.2.symm.trans h2) (by decide)
      · exact h3.1.trans ha
    | false =>
      rw [StartGrapple_travelling w s ha hb]
      unfold MoveGrappleTo
      split <;> exact ha

theorem step_AttachedInv (s : Character) (op : Op) (h : AttachedInv s) :
    AttachedInv (step s op) := by
  cases op with
  | Grapple w =>
    simp only [step]
    unfold Grapple
    split
    · exact h
    · split
      · intro _
        rfl
      · split
        · intro h2
          rw [StopGrapple_bGrappleAttached] at h2
          exact absurd h2 (by decide)
        · exact h
  | StartGrapple w => exact StartGrapple_AttachedInv w s h
  | StartJump =>
    simp only [step]
    intro h2
    rcases StartJump_flags s with h3 | h3
    · rw [h3.2] at h2
      exact absurd h2 (by decide)
    · rw [h3.1]
      exact h (h3.2.1 ▸ h2)
  | EndJump =>
    simp only [step, EndJump]
    intro h2
    rw [HandleThirdPersonAnimJump_bGrappleAttached] at h2
    rw [HandleThirdPersonAnimJump_bGrappleActive]
    exact h h2
  | BreakGrapple =>
    intro h2
    have h3 : (BreakGrapple s).bGrappleAttached = false := StopGrapple_bGrappleAttached _
    rw [show step s Op.BreakGrapple = BreakGrapple s from rfl, h3] at h2
    exact absurd h2 (by decide)
  | StopGrapple =>
    intro h2
    rw [show step s Op.StopGrapple = StopGrapple s from rfl, StopGrapple_bGrappleAttached] at h2
    exact absurd h2 (by decide)
  | SwitchCamera =>
    simp only [step, SwitchCamera]
    split <;> exact h
  | UpdateStartDirection d =>
    obtain ⟨b, hb⟩ := UpdateStartDirection_frame d s
    rw [show step s (Op.UpdateStartDirection d) = UpdateStartDirection d s from rfl, hb]
    exact h
  | _ => exact h

theorem foldl_AttachedInv (ops : List Op) (s : Character) (h : AttachedInv s) :
    AttachedInv (ops.foldl step s) := by
  induction ops generalizing s with
  | nil => exact h
  | cons op ops ih => exact ih _ (step_AttachedInv s op h)

/-- C19: in every state reached from the constructed character by any sequence of
`Grapple`, timer ticks (`StartGrapple`), `StartJump`, `BreakGrapple` and
`StopGrapple` (and also `EndJump`, `SwitchCamera`, `UpdateStartDirection`, the
setters and engine updates), `bGrappleAttached = true` implies
`bGrappleActive = true`. -/
theorem C19_attached_implies_active (ops : List Op) :
    (run ops).bGrappleAttached = true → (run ops).bGrappleActive = true :=
  foldl_AttachedInv ops initial (fun h => absurd h (by decide))

/-- Witness for C19 on the complete session `arrivingOps`. -/
theorem C19_attached_implies_active_witness :
    (run arrivingOps).bGrappleAttached = true ∧ (run arrivingOps).bGrappleActive = true :=
  ⟨by rw [run_arrivingOps]; rfl,
    C19_attached_implies_active arrivingOps (by rw [run_arrivingOps]; rfl)⟩

/-! ## The travelling cable -/
theorem SizeSquared_nonneg (V : FVector) : 0 ≤ V.SizeSquared := by
  unfold FVector.SizeSquared
  nlinarith [mul_self_nonneg V.X, mul_self_nonneg V.Y, mul_self_nonneg V.Z]

theorem VSizeLE_ten (V : FVector) : VSizeLE V 10 = true ↔ V.SizeSquared ≤ 100 := by
  unfold VSizeLE
  norm_num

theorem VSizeLE_iff_sqrt (V : FVector) (R : ℚ) :
    VSizeLE V R = true ↔ Real.sqrt ((V.SizeSquared : ℚ) : ℝ) ≤ (R : ℝ) := by
  unfold VSizeLE
  rw [Real.sqrt_le_iff, Bool.and_eq_true, decide_eq_true_eq, decide_eq_true_eq]
  constructor
  · rintro ⟨h1, h2⟩
    refine ⟨by exact_mod_cast h1, ?_⟩
    have : ((V.SizeSquared : ℚ) : ℝ) ≤ ((R * R : ℚ) : ℝ) := by exact_mod_cast h2
    rw [sq]
    push_cast at this
    exact this
  · rintro ⟨h1, h2⟩
    refine ⟨by exact_mod_cast h1, ?_⟩
    rw [sq] at h2
    exact_mod_cast h2

theorem Clamp_zero_one (x : ℚ) : 0 ≤ Clamp x 0 1 ∧ Clamp x 0 1 ≤ 1 := by
  unfold Clamp
  split_ifs <;> constructor <;> linarith

theorem Clamp_pos (x : ℚ) (h : 0 < x) : 0 < Clamp x 0 1 := by
  unfold Clamp
  split_ifs <;> linarith

theorem SizeSquared_sub_self (a : FVector) : (a.sub a).SizeSquared = 0 := by
  simp [FVector.sub, FVector.SizeSquared]

theorem SizeSquared_sub_comm (a b : FVector) : (a.sub b).SizeSquared = (b.sub a).SizeSquared := by
  simp only [FVector.sub, FVector.SizeSquared]
  ring

theorem interp_distSq (c t : FVector) (k : ℚ) :
    ((c.add ((t.sub c).scale k)).sub t).SizeSquared = (1 - k) ^ 2 * (c.sub t).SizeSquared := by
  simp only [FVector.sub, FVector.add, FVector.scale, FVector.SizeSquared]
  ring

theorem VInterpTo_distSq_le (c t : FVector) (dt v : ℚ) :
    ((VInterpTo c t dt v).sub t).SizeSquared ≤ (c.sub t).SizeSquared := by
  unfold VInterpTo
  dsimp only
  split_ifs
  · rw [SizeSquared_sub_self]
    exact SizeSquared_nonneg _
  · rw [SizeSquared_sub_self]
    exact SizeSquared_nonneg _
  · rw [interp_distSq]
    obtain ⟨h0, h1⟩ := Clamp_zero_one (dt * v)
    have hD := SizeSquared_nonneg (c.sub t)
    have hk : (1 - Clamp (dt * v) 0 1) ^ 2 ≤ 1 := by nlinarith
    nlinarith

theorem VInterpTo_distSq_eq (c t : FVector) (dt v : ℚ) (hv : 0 < v)
    (hD : 1 / 10000 ≤ (c.sub t).SizeSquared) :
    ((VInterpTo c t dt v).sub t).SizeSquared =
      (1 - Clamp (dt * v) 0 1) ^ 2 * (c.sub t).SizeSquared := by
  unfold VInterpTo
  dsimp only
  rw [if_neg (not_le.mpr hv), SizeSquared_sub_comm t c, if_neg (not_lt.mpr hD), interp_distSq]

theorem MoveGrappleTo_near (w : World) (s : Character)
    (h : VSizeLE (s.CableLocation.sub s.AttachLocation) 10 = true) :
    MoveGrappleTo w s = { s with bGrappleAttached := true } := by
  unfold MoveGrappleTo
  simp [h]

theorem MoveGrappleTo_far (w : World) (s : Character)
    (h : VSizeLE (s.CableLocation.sub s.AttachLocation) 10 = false) :
    MoveGrappleTo w s =
      { s with
        CableLocation := w.Sweep s.CableLocation
          (VInterpTo s.CableLocation s.AttachLocation w.DeltaSeconds s.GrappleAttachSpeed)
        bGrappleAttached := false } := by
  unfold MoveGrappleTo
  simp [h]

theorem StartGrapple_AttachLocation (w : World) (s : Character) :
    (StartGrapple w s).AttachLocation = s.AttachLocation := by
  unfold StartGrapple
  split
  · split
    · dsimp only
      unfold MovePlayerToGrappledLocation
      dsimp only
      split
      · rfl
      · split
        · split
          · unfold BreakGrapple
            rw [StopGrapple_AttachLocation]
            rfl
          · rfl
        · rfl
    · unfold MoveGrappleTo
      split <;> rfl
  · unfold ClearGrappleTimer
    split <;> rfl

theorem MovePlayerToGrappledLocation_CableLocation (w : World) (s : Character) :
    (MovePlayerToGrappledLocation w s).CableLocation = s.CableLocation := by
  unfold MovePlayerToGrappledLocation
  dsimp only
  split
  · rfl
  · split
    · split
      · unfold BreakGrapple StopGrapple ClearGrappleTimer LaunchCharacter
        dsimp only
        split <;> split <;> rfl
      · rfl
    · rfl

theorem StartGrapple_cableDistSq_le (w : World) (s : Character)
    (hSweep : ∀ a b, w.Sweep a b = b) : cableDistSq (StartGrapple w s) ≤ cableDistSq s := by
  unfold cableDistSq
  rw [StartGrapple_AttachLocation]
  cases ha : s.bGrappleActive with
  | false =>
    rw [StartGrapple_inactive w s ha]
    unfold ClearGrappleTimer
    split <;> exact le_refl _
  | true =>
    cases hb : s.bGrappleAttached with
    | true =>
      rw [StartGrapple_attached w s ha hb]
      dsimp only
      rw [hSweep, MovePlayerToGrappledLocation_CableLocation]
      have hA : (MovePlayerToGrappledLocation w s).AttachLocation = s.AttachLocation := by
        have h := StartGrapple_AttachLocation w s
        rw [StartGrapple_attached w s ha hb] at h
        exact h
      rw [hA]
      exact VInterpTo_distSq_le _ _ _ _
    | false =>
      rw [StartGrapple_travelling w s ha hb]
      cases hn : VSizeLE (s.CableLocation.sub s.AttachLocation) 10 with
      | true =>
        rw [MoveGrappleTo_near w s hn]
      | false =>
        rw [MoveGrappleTo_far w s hn]
        dsimp only
        rw [hSweep]
        exact VInterpTo_distSq_le _ _ _ _

theorem ticks_AttachLocation (W : ℕ → World) (n : ℕ) (s : Character) :
    (ticks W n s).AttachLocation = s.AttachLocation := by
  induction n with
  | zero => rfl
  | succ n ih => exact (StartGrapple_AttachLocation (W n) _).trans ih

/-- C13: take a timer tick in the CableTraveling phase (active, not attached). If the
distance between the cable position and `AttachLocation` is at most 10,
`bGrappleAttached` becomes true and the cable position is not moved. Otherwise
`bGrappleAttached` stays false and the cable is moved, by the swept
`SetWorldLocation`, to the interpolation toward `AttachLocation` at
`GrappleAttachSpeed`; it is exactly that interpolation when the sweep is not
blocked. In both cases the player traveler is idle: no request reaches the body
(no launch), and movement mode, velocity and `bArrived` are unchanged. -/
theorem C13_travelling_tick (w : World) (s : Character)
    (hActive : s.bGrappleActive = true) (hTravel : s.bGrappleAttached = false) :
    (Real.sqrt ((cableDistSq s : ℚ) : ℝ) ≤ 10 →
        (StartGrapple w s).bGrappleAttached = true ∧
        (StartGrapple w s).CableLocation = s.CableLocation) ∧
      (10 < Real.sqrt ((cableDistSq s : ℚ) : ℝ) →
        (StartGrapple w s).bGrappleAttached = false ∧
        (StartGrapple w s).CableLocation = w.Sweep s.CableLocation
          (VInterpTo s.CableLocation s.AttachLocation w.DeltaSeconds s.GrappleAttachSpeed) ∧
        ((∀ a b, w.Sweep a b = b) → (StartGrapple w s).CableLocation =
          VInterpTo s.CableLocation s.AttachLocation w.DeltaSeconds s.GrappleAttachSpeed)) ∧
      Launches (StartGrapple w s).Calls = Launches s.Calls ∧
      (StartGrapple w s).Calls = s.Calls ∧
      (StartGrapple w s).MovementMode = s.MovementMode ∧
      (StartGrapple w s).Velocity = s.Velocity ∧
      (StartGrapple w s).bArrived = s.bArrived := by
  have hiff := VSizeLE_iff_sqrt (s.CableLocation.sub s.AttachLocation) 10
  rw [StartGrapple_travelling w s hActive hTravel]
  refine ⟨?_, ?_, ?_⟩
  · intro h
    have hn : VSizeLE (s.CableLocation.sub s.AttachLocation) 10 = true :=
      hiff.mpr (by simpa [cableDistSq] using h)
    rw [MoveGrappleTo_near w s hn]
    exact ⟨rfl, rfl⟩
  · intro h
    have hn : VSizeLE (s.CableLocation.sub s.AttachLocation) 10 = false := by
      cases hv : VSizeLE (s.CableLocation.sub s.AttachLocation) 10 with
      | false => rfl
      | true =>
        have := hiff.mp hv
        simp only [cableDistSq] at h
        push_cast at this
        exact absurd this (not_le.mpr h)
    rw [MoveGrappleTo_far w s hn]
    exact ⟨rfl, rfl, fun hs => hs _ _⟩
  · unfold MoveGrappleTo
    split <;> exact ⟨rfl, rfl, rfl, rfl, rfl⟩

/-- Witness for C13 on the travelling state right after a hit at `pointP`. -/
theorem C13_travelling_tick_witness :
    (Real.sqrt ((cableDistSq travelling : ℚ) : ℝ) ≤ 10 →
        (StartGrapple (sampleWorld none false FVector.zero) travelling).bGrappleAttached = true ∧
        (StartGrapple (sampleWorld none false FVector.zero) travelling).CableLocation =
          travelling.CableLocation) ∧
      (10 < Real.sqrt ((cableDistSq travelling : ℚ) : ℝ) →
        (StartGrapple (sampleWorld none false FVector.zero) travelling).bGrappleAttached
          = false ∧
        (StartGrapple (sampleWorld none false FVector.zero) travelling).CableLocation =
          (sampleWorld none false FVector.zero).Sweep travelling.CableLocation
            (VInterpTo travelling.CableLocation travelling.AttachLocation
              (sampleWorld none false FVector.zero).DeltaSeconds travelling.GrappleAttachSpeed) ∧
        ((∀ a b, (sampleWorld none false FVector.zero).Sweep a b = b) →
          (StartGrapple (sampleWorld none false FVector.zero) travelling).CableLocation =
            VInterpTo travelling.CableLocation travelling.AttachLocation
              (sampleWorld none false FVector.zero).DeltaSeconds
              travelling.GrappleAttachSpeed)) ∧
      Launches (StartGrapple (sampleWorld none false FVector.zero) travelling).Calls =
        Launches travelling.Calls ∧
      (StartGrapple (sampleWorld none false FVector.zero) travelling).Calls = travelling.Calls ∧
      (StartGrapple (sampleWorld none false FVector.zero) travelling).MovementMode =
        travelling.MovementMode ∧
      (StartGrapple (sampleWorld none false FVector.zero) travelling).Velocity =
        travelling.Velocity ∧
      (StartGrapple (sampleWorld none false FVector.zero) travelling).bArrived =
        travelling.bArrived :=
  C13_travelling_tick (sampleWorld none false FVector.zero) travelling rfl rfl

/-! ## Convergence of the cable -/
theorem travelling_step (w : World) (s : Character)
    (hActive : s.bGrappleActive = true) (hTravel : s.bGrappleAttached = false)
    (hSweep : ∀ a b, w.Sweep a b = b) (hSpeed : 0 < s.GrappleAttachSpeed) :
    (cableDistSq s ≤ 100 →
        (StartGrapple w s).bGrappleAttached = true ∧
        cableDistSq (StartGrapple w s) = cableDistSq s) ∧
      (100 < cableDistSq s →
        (StartGrapple w s).bGrappleActive = true ∧
        (StartGrapple w s).bGrappleAttached = false ∧
        (StartGrapple w s).GrappleAttachSpeed = s.GrappleAttachSpeed ∧
        cableDistSq (StartGrapple w s) =
          (1 - Clamp (w.DeltaSeconds * s.GrappleAttachSpeed) 0 1) ^ 2 * cableDistSq s) := by
  rw [StartGrapple_travelling w s hActive hTravel]
  constructor
  · intro h
    rw [MoveGrappleTo_near w s ((VSizeLE_ten _).mpr h)]
    exact ⟨rfl, rfl⟩
  · intro h
    have hn : VSizeLE (s.CableLocation.sub s.AttachLocation) 10 = false := by
      cases hv : VSizeLE (s.CableLocation.sub s.AttachLocation) 10 with
      | false => rfl
      | true => exact absurd ((VSizeLE_ten _).mp hv) (not_le.mpr h)
    rw [MoveGrappleTo_far w s hn]
    refine ⟨hActive, rfl, rfl, ?_⟩
    unfold cableDistSq at h ⊢
    dsimp only
    rw [hSweep]
    exact VInterpTo_distSq_eq _ _ _ _ hSpeed (by linarith)

theorem cable_progress (W : ℕ → World) (s : Character) (dt : ℚ)
    (hActive : s.bGrappleActive = true) (hTravel : s.bGrappleAttached = false)
    (hSweep : ∀ i a b, (W i).Sweep a b = b) (hSpeed : 0 < s.GrappleAttachSpeed)
    (hW : ∀ i, (W i).DeltaSeconds = dt) (n : ℕ) :
    (∃ m, m ≤ n ∧ (ticks W m s).bGrappleAttached = true ∧ cableDistSq (ticks W m s) ≤ 100) ∨
      ((ticks W n s).bGrappleActive = true ∧ (ticks W n s).bGrappleAttached = false ∧
        (ticks W n s).GrappleAttachSpeed = s.GrappleAttachSpeed ∧
        cableDistSq (ticks W n s) ≤
          ((1 - Clamp (dt * s.GrappleAttachSpeed) 0 1) ^ 2) ^ n * cableDistSq s) := by
  induction n with
  | zero => exact Or.inr ⟨hActive, hTravel, rfl, by simp [ticks]⟩
  | succ n ih =>
    rcases ih with ⟨m, hm, h⟩ | ⟨h1, h2, h3, h4⟩
    · exact Or.inl ⟨m, Nat.le_succ_of_le hm, h⟩
    · have hstep := travelling_step (W n) (ticks W n s) h1 h2 (hSweep n) (h3 ▸ hSpeed)
      by_cases hD : cableDistSq (ticks W n s) ≤ 100
      · obtain ⟨ha, hb⟩ := hstep.1 hD
        exact Or.inl ⟨n + 1, le_refl _, ha, hb.trans_le hD⟩
      · obtain ⟨ha, hb, hc, hd⟩ := hstep.2 (not_le.mp hD)
        refine Or.inr ⟨ha, hb, hc.trans h3, ?_⟩
        show cableDistSq (StartGrapple (W n) (ticks W n s)) ≤ _
        rw [hd, hW n, h3]
        have hβ : 0 ≤ (1 - Clamp (dt * s.GrappleAttachSpeed) 0 1) ^ 2 := sq_nonneg _
        calc (1 - Clamp (dt * s.GrappleAttachSpeed) 0 1) ^ 2 * cableDistSq (ticks W n s)
            ≤ (1 - Clamp (dt * s.GrappleAttachSpeed) 0 1) ^ 2 *
                (((1 - Clamp (dt * s.GrappleAttachSpeed) 0 1) ^ 2) ^ n * cableDistSq s) :=
              mul_le_mul_of_nonneg_left h4 hβ
          _ = ((1 - Clamp (dt * s.GrappleAttachSpeed) 0 1) ^ 2) ^ (n + 1) * cableDistSq s := by
              ring

theorem cable_attaches (W : ℕ → World) (s : Character) (dt : ℚ)
    (hActive : s.bGrappleActive = true) (hTravel : s.bGrappleAttached = false)
    (hSweep : ∀ i a b, (W i).Sweep a b = b) (hSpeed : 0 < s.GrappleAttachSpeed)
    (hdt : 0 < dt) (hW : ∀ i, (W i).DeltaSeconds = dt) :
    ∃ n, (ticks W n s).bGrappleAttached = true ∧ cableDistSq (ticks W n s) ≤ 100 := by
  obtain ⟨h0, h1⟩ := Clamp_zero_one (dt * s.GrappleAttachSpeed)
  have hpos := Clamp_pos (dt * s.GrappleAttachSpeed) (mul_pos hdt hSpeed)
  have hβ1 : (1 - Clamp (dt * s.GrappleAttachSpeed) 0 1) ^ 2 < 1 := by nlinarith
  have hD0 := SizeSquared_nonneg (s.CableLocation.sub s.AttachLocation)
  have hx : (0 : ℚ) < 100 / (cableDistSq s + 1) := by
    unfold cableDistSq
    positivity
  obtain ⟨n, hn⟩ := exists_pow_lt_of_lt_one hx hβ1
  have hsmall : ((1 - Clamp (dt * s.GrappleAttachSpeed) 0 1) ^ 2) ^ n * cableDistSq s ≤ 100 := by
    have hD : 0 ≤ cableDistSq s := hD0
    have h2 : ((1 - Clamp (dt * s.GrappleAttachSpeed) 0 1) ^ 2) ^ n * (cableDistSq s + 1)
        < 100 := by
      rw [lt_div_iff₀ (by linarith)] at hn
      exact hn
    have h3 : 0 ≤ ((1 - Clamp (dt * s.GrappleAttachSpeed) 0 1) ^ 2) ^ n :=
      pow_nonneg (sq_nonneg _) n
    nlinarith
  rcases cable_progress W s dt hActive hTravel hSweep hSpeed hW n with
    ⟨m, _, h⟩ | ⟨h1, h2, h3, h4⟩
  · exact ⟨m, h⟩
  · have hstep := travelling_step (W n) (ticks W n s) h1 h2 (hSweep n) (h3 ▸ hSpeed)
    obtain ⟨ha, hb⟩ := hstep.1 (h4.trans hsmall)
    exact ⟨n + 1, ha, hb.trans_le (h4.trans hsmall)⟩

theorem sqrt_cableDistSq_le_ten (s : Character) (h : cableDistSq s ≤ 100) :
    Real.sqrt ((cableDistSq s : ℚ) : ℝ) ≤ 10 := by
  have h1 := (VSizeLE_iff_sqrt (s.CableLocation.sub s.AttachLocation) 10).mp
    ((VSizeLE_ten _).mpr h)
  push_cast at h1
  exact h1

/-- C14: start in the CableTraveling phase (active, not attached) and let timer ticks
follow one another, every swept move being unobstructed. The attach point stays
fixed, and the distance from the cable position to `AttachLocation` never increases
from one tick to the next. If moreover `GrappleAttachSpeed > 0` and every tick sees
the same `dt > 0`, there is a number of ticks after which `bGrappleAttached` is true
and the distance is at most 10. -/
theorem C14_cable_converges (W : ℕ → World) (s : Character)
    (hActive : s.bGrappleActive = true) (hTravel : s.bGrappleAttached = false)
    (hSweep : ∀ i a b, (W i).Sweep a b = b) :
    (∀ n, (ticks W n s).AttachLocation = s.AttachLocation) ∧
      (∀ n, Real.sqrt ((cableDistSq (ticks W (n + 1) s) : ℚ) : ℝ) ≤
        Real.sqrt ((cableDistSq (ticks W n s) : ℚ) : ℝ)) ∧
      (0 < s.GrappleAttachSpeed → ∀ dt : ℚ, 0 < dt → (∀ i, (W i).DeltaSeconds = dt) →
        ∃ n, (ticks W n s).bGrappleAttached = true ∧
          Real.sqrt ((cableDistSq (ticks W n s) : ℚ) : ℝ) ≤ 10) := by
  refine ⟨fun n => ticks_AttachLocation W n s, fun n => ?_, ?_⟩
  · apply Real.sqrt_le_sqrt
    have h : cableDistSq (ticks W (n + 1) s) ≤ cableDistSq (ticks W n s) :=
      StartGrapple_cableDistSq_le (W n) (ticks W n s) (hSweep n)
    exact_mod_cast h
  · intro hSpeed dt hdt hW
    obtain ⟨n, h1, h2⟩ := cable_attaches W s dt hActive hTravel hSweep hSpeed hdt hW
    exact ⟨n, h1, sqrt_cableDistSq_le_ten _ h2⟩

/-- Witness for C14: the travelling state right after a hit at `pointP`, ticking in
a world with a 10 ms frame and unobstructed sweeps, at the default speed 50. -/
theorem C14_cable_converges_witness :
    (∀ n, (ticks (fun _ => sampleWorld none false FVector.zero) n travelling).AttachLocation =
        travelling.AttachLocation) ∧
      (∀ n, Real.sqrt ((cableDistSq
          (ticks (fun _ => sampleWorld none false FVector.zero) (n + 1) travelling) : ℚ) : ℝ) ≤
        Real.sqrt ((cableDistSq
          (ticks (fun _ => sampleWorld none false FVector.zero) n travelling) : ℚ) : ℝ)) ∧
      (∃ n, (ticks (fun _ => sampleWorld none false FVector.zero) n travelling).bGrappleAttached
          = true ∧
        Real.sqrt ((cableDistSq
          (ticks (fun _ => sampleWorld none false FVector.zero) n travelling) : ℚ) : ℝ) ≤ 10) :=
  have h := C14_cable_converges (fun _ => sampleWorld none false FVector.zero) travelling
    rfl rfl (fun _ _ _ => rfl)
  ⟨h.1, h.2.1, h.2.2 (by show (0 : ℚ) < 50; norm_num) (1 / 100) (by norm_num) (fun _ => rfl)⟩

/-! ## The aim bucket -/

theorem UpdateStartDirection_unassigned (y : Int) (s : Character) (h : y ≤ -156 ∨ 180 ≤ y) :
    UpdateStartDirection y s = s := by
  have h0 : ¬ (y ≥ 180 ∧ y ≤ -156) := by omega
  have h1 : ¬ (y ≥ -155 ∧ y ≤ -112) := by omega
  have h2 : ¬ (y ≥ -111 ∧ y ≤ -66) := by omega
  have h3 : ¬ (y ≥ -65 ∧ y ≤ -22) := by omega
  have h4 : ¬ (y ≥ -21 ∧ y ≤ 21) := by omega
  have h5 : ¬ (y ≥ 22 ∧ y ≤ 65) := by omega
  have h6 : ¬ (y ≥ 66 ∧ y ≤ 111) := by omega
  have h7 : ¬ (y ≥ 112 ∧ y ≤ 155) := by omega
  have h8 : ¬ (y ≥ 156 ∧ y ≤ 179) := by omega
  unfold UpdateStartDirection
  rw [if_neg h0, if_neg h1, if_neg h2, if_neg h3, if_neg h4, if_neg h5, if_neg h6, if_neg h7,
    if_neg h8]

theorem UpdateStartDirection_StartDirection (y : Int) (s : Character) :
    (UpdateStartDirection y s).StartDirection =
      if y ≥ 180 ∧ y ≤ -156 then -180
      else if y ≥ -155 ∧ y ≤ -112 then -135
      else if y ≥ -111 ∧ y ≤ -66 then -90
      else if y ≥ -65 ∧ y ≤ -22 then -45
      else if y ≥ -21 ∧ y ≤ 21 then 0
      else if y ≥ 22 ∧ y ≤ 65 then 45
      else if y ≥ 66 ∧ y ≤ 111 then 90
      else if y ≥ 112 ∧ y ≤ 155 then 135
      else if y ≥ 156 ∧ y ≤ 179 then 180
      else s.StartDirection := by
  unfold UpdateStartDirection
  simp only [apply_ite Character.StartDirection]

theorem UpdateStartDirection_cases (y : Int) (s : Character) (h : -155 ≤ y ∧ y ≤ 179) :
    (y ≤ -112 ∧ (UpdateStartDirection y s).StartDirection = -135) ∨
      (-111 ≤ y ∧ y ≤ -66 ∧ (UpdateStartDirection y s).StartDirection = -90) ∨
      (-65 ≤ y ∧ y ≤ -22 ∧ (UpdateStartDirection y s).StartDirection = -45) ∨
      (-21 ≤ y ∧ y ≤ 21 ∧ (UpdateStartDirection y s).StartDirection = 0) ∨
      (22 ≤ y ∧ y ≤ 65 ∧ (UpdateStartDirection y s).StartDirection = 45) ∨
      (66 ≤ y ∧ y ≤ 111 ∧ (UpdateStartDirection y s).StartDirection = 90) ∨
      (112 ≤ y ∧ y ≤ 155 ∧ (UpdateStartDirection y s).StartDirection = 135) ∨
      (156 ≤ y ∧ (UpdateStartDirection y s).StartDirection = 180) := by
  rw [UpdateStartDirection_StartDirection]
  have h0 : ¬ (y ≥ 180 ∧ y ≤ -156) := by omega
  rw [if_neg h0]
  by_cases h1 : y ≥ -155 ∧ y ≤ -112
  · rw [if_pos h1]
    exact Or.inl ⟨h1.2, rfl⟩
  rw [if_neg h1]
  by_cases h2 : y ≥ -111 ∧ y ≤ -66
  · rw [if_pos h2]
    exact Or.inr (Or.inl ⟨h2.1, h2.2, rfl⟩)
  rw [if_neg h2]
  by_cases h3 : y ≥ -65 ∧ y ≤ -22
  · rw [if_pos h3]
    exact Or.inr (Or.inr (Or.inl ⟨h3.1, h3.2, rfl⟩))
  rw [if_neg h3]
  by_cases h4 : y ≥ -21 ∧ y ≤ 21
  · rw [if_pos h4]
    exact Or.inr (Or.inr (Or.inr (Or.inl ⟨h4.1, h4.2, rfl⟩)))
  rw [if_neg h4]
  by_cases h5 : y ≥ 22 ∧ y ≤ 65
  · rw [if_pos h5]
    exact Or.inr (Or.inr (Or.inr (Or.inr (Or.inl ⟨h5.1, h5.2, rfl⟩))))
  rw [if_neg h5]
  by_cases h6 : y ≥ 66 ∧ y ≤ 111
  · rw [if_pos h6]
    exact Or.inr (Or.inr (Or.inr (Or.inr (Or.inr (Or.inl ⟨h6.1, h6.2, rfl⟩)))))
  rw [if_neg h6]
  by_cases h7 : y ≥ 112 ∧ y ≤ 155
  · rw [if_pos h7]
    exact Or.inr (Or.inr (Or.inr (Or.inr (Or.inr (Or.inr (Or.inl ⟨h7.1, h7.2, rfl⟩))))))
  rw [if_neg h7]
  have h8 : y ≥ 156 ∧ y ≤ 179 := by omega
  rw [if_pos h8]
  exact Or.inr (Or.inr (Or.inr (Or.inr (Or.inr (Or.inr (Or.inr ⟨h8.1, rfl⟩))))))

theorem UpdateStartDirection_forward_iff (y : Int) (s : Character)
    (h : -155 ≤ y ∧ y ≤ 179) :
    (UpdateStartDirection y s).StartDirection = 0 ↔ (-21 ≤ y ∧ y ≤ 21) := by
  rcases UpdateStartDirection_cases y s h with
    ⟨a, e⟩ | ⟨a, b, e⟩ | ⟨a, b, e⟩ | ⟨a, b, e⟩ | ⟨a, b, e⟩ | ⟨a, b, e⟩ | ⟨a, b, e⟩ | ⟨a, e⟩ <;>
  rw [e] <;> constructor <;> intro _ <;> omega

theorem UpdateStartDirection_bucket (y : Int) (s : Character) (h : -155 ≤ y ∧ y ≤ 179) :
    (UpdateStartDirection y s).StartDirection ∈ [-135, -90, -45, 0, 45, 90, 135, 180] := by
  rcases UpdateStartDirection_cases y s h with
    ⟨a, e⟩ | ⟨a, b, e⟩ | ⟨a, b, e⟩ | ⟨a, b, e⟩ | ⟨a, b, e⟩ | ⟨a, b, e⟩ | ⟨a, b, e⟩ | ⟨a, e⟩ <;>
  rw [e] <;> decide

theorem UpdateStartDirection_independent (y : Int) (s t : Character)
    (h : -155 ≤ y ∧ y ≤ 179) :
    (UpdateStartDirection y s).StartDirection = (UpdateStartDirection y t).StartDirection := by
  rw [UpdateStartDirection_StartDirection, UpdateStartDirection_StartDirection]
  by_cases h0 : y ≥ 180 ∧ y ≤ -156
  · rw [if_pos h0, if_pos h0]
  rw [if_neg h0, if_neg h0]
  by_cases h1 : y ≥ -155 ∧ y ≤ -112
  · rw [if_pos h1, if_pos h1]
  rw [if_neg h1, if_neg h1]
  by_cases h2 : y ≥ -111 ∧ y ≤ -66
  · rw [if_pos h2, if_pos h2]
  rw [if_neg h2, if_neg h2]
  by_cases h3 : y ≥ -65 ∧ y ≤ -22
  · rw [if_pos h3, if_pos h3]
  rw [if_neg h3, if_neg h3]
  by_cases h4 : y ≥ -21 ∧ y ≤ 21
  · rw [if_pos h4, if_pos h4]
  rw [if_neg h4, if_neg h4]
  by_cases h5 : y ≥ 22 ∧ y ≤ 65
  · rw [if_pos h5, if_pos h5]
  rw [if_neg h5, if_neg h5]
  by_cases h6 : y ≥ 66 ∧ y ≤ 111
  · rw [if_pos h6, if_pos h6]
  rw [if_neg h6, if_neg h6]
  by_cases h7 : y ≥ 112 ∧ y ≤ 155
  · rw [if_pos h7, if_pos h7]
  rw [if_neg h7, if_neg h7]
  by_cases h8 : y ≥ 156 ∧ y ≤ 179
  · rw [if_pos h8, if_pos h8]
  omega

/-- C15, evaluated on the failing input: starting from the constructed character,
whose bucket is 0, an update with yaw -170 matches no branch, because the first
test `>= 180 && <= -156` can never hold, so the bucket is still 0 although the yaw
is outside [-21, 21]; the third-person `Grapple` then still produces a ray. -/
theorem C15_forward_bucket_failing_input :
    (run [Op.UpdateStartDirection (-170)]).StartDirection = 0 ∧
      ¬ (-21 ≤ (-170 : Int) ∧ (-170 : Int) ≤ 21) ∧
      (GrappleRay (sampleWorld none false FVector.zero)
        (run [Op.UpdateStartDirection (-170)])).isSome = true := by
  decide

/-- C16, evaluated on the failing input: after an update with yaw 30 the bucket is
45, and a following update with yaw -180 (or 180, or -156) leaves it at 45: the
wrap-around yaws are assigned no bucket and the result depends on the previous
one (after yaw -100 the same update leaves -90). -/
theorem C16_wrap_around_failing_input :
    (run [Op.UpdateStartDirection 30]).StartDirection = 45 ∧
      (run [Op.UpdateStartDirection 30, Op.UpdateStartDirection (-180)]).StartDirection = 45 ∧
      (run [Op.UpdateStartDirection 30, Op.UpdateStartDirection 180]).StartDirection = 45 ∧
      (run [Op.UpdateStartDirection 30, Op.UpdateStartDirection (-156)]).StartDirection = 45 ∧
      (run [Op.UpdateStartDirection (-100), Op.UpdateStartDirection (-180)]).StartDirection
        = -90 := by
  decide

/-! ## The attach point during a session -/

theorem Grapple_AttachLocation_of_not_hit (w : World) (s : Character)
    (h : ∀ P, GrappleTrace w s ≠ some (some P)) :
    (Grapple w s).AttachLocation = s.AttachLocation := by
  cases ht : GrappleTrace w s with
  | none => rw [Grapple_of_no_ray w s ht]
  | some r =>
    cases r with
    | none =>
      rw [Grapple_of_trace_miss w s ht]
      split
      · rfl
      · exact StopGrapple_AttachLocation s
    | some P => exact absurd ht (h P)

theorem Grapple_AttachLocation_of_hit (w : World) (s : Character) (P : FVector)
    (h : GrappleTrace w s = some (some P)) : (Grapple w s).AttachLocation = P := by
  unfold GrappleTrace at h
  unfold Grapple
  cases hr : GrappleRay w s with
  | none => simp [hr] at h
  | some r =>
    obtain ⟨a, b⟩ := r
    simp only [hr, Option.map_some', Option.some.injEq] at h
    simp [h]

theorem StartJump_AttachLocation (s : Character) :
    (StartJump s).AttachLocation = s.AttachLocation := by
  unfold StartJump HandleThirdPersonAnimJump BreakGrapple
  dsimp only
  split
  · exact StopGrapple_AttachLocation s
  · split <;> split <;> first | rfl | exact StopGrapple_AttachLocation _

/-- C17, as stated, fails: in the attached session reached by `attachingOps`, whose
attach point is `pointP`, a `Grapple` whose trace hits `pointQ` leaves the session
active and attached with `AttachLocation = pointQ`. -/
theorem C17_counterexample :
    (run attachingOps).bGrappleActive = true ∧ (run attachingOps).AttachLocation = pointP ∧
      (step (run attachingOps)
        (Op.Grapple (sampleWorld (some pointQ) false FVector.zero))).bGrappleActive = true ∧
      (step (run attachingOps)
        (Op.Grapple (sampleWorld (some pointQ) false FVector.zero))).AttachLocation = pointQ ∧
      pointQ ≠ pointP := by
  rw [run_attachingOps]
  refine ⟨rfl, rfl, rfl, rfl, ?_⟩
  simp [pointQ, pointP]

/-- C17, amended: for every state and every operation (timer tick, `StartJump`,
`EndJump`, `BreakGrapple`, `StopGrapple`, `SwitchCamera`, `UpdateStartDirection`,
any setter, an engine update, and `Grapple` when it produces no ray or its trace
misses) `AttachLocation` is unchanged; a `Grapple` whose trace hits at `P` replaces
`AttachLocation` by `P`, also during an active session. -/
theorem C17_attach_point_frame (s : Character) (op : Op) :
    ((∀ w P, op = Op.Grapple w → GrappleTrace w s ≠ some (some P)) →
        (step s op).AttachLocation = s.AttachLocation) ∧
      (∀ w P, op = Op.Grapple w → GrappleTrace w s = some (some P) →
        (step s op).AttachLocation = P) := by
  constructor
  · intro h
    cases op with
    | Grapple w => exact Grapple_AttachLocation_of_not_hit w s (fun P => h w P rfl)
    | StartGrapple w => exact StartGrapple_AttachLocation w s
    | StartJump => exact StartJump_AttachLocation s
    | EndJump =>
      simp only [step, EndJump, HandleThirdPersonAnimJump]
      split <;> rfl
    | BreakGrapple => exact StopGrapple_AttachLocation _
    | StopGrapple => exact StopGrapple_AttachLocation s
    | SwitchCamera =>
      simp only [step, SwitchCamera]
      split <;> rfl
    | UpdateStartDirection d =>
      obtain ⟨b, hb⟩ := UpdateStartDirection_frame d s
      rw [show step s (Op.UpdateStartDirection d) = UpdateStartDirection d s from rfl, hb]
    | _ => rfl
  · intro w P hop hhit
    subst hop
    exact Grapple_AttachLocation_of_hit w s P hhit

/-- Witness for C17: a timer tick on an attached session keeps the attach point, and
no `Grapple` is involved. -/
theorem C17_attach_point_frame_witness :
    (step (attachedAt false) (Op.StartGrapple groundedWorld)).AttachLocation =
      (attachedAt false).AttachLocation :=
  (C17_attach_point_frame (attachedAt false) (Op.StartGrapple groundedWorld)).1
    (fun _ _ h => Op.noConfusion h)

/-! ## Length of the aim ray -/

theorem GrappleRay_SizeSquared (w : World) (s : Character) (a b : FVector)
    (hRay : GrappleRay w s = some (a, b)) :
    (s.bIsFirstPerson = true →
        (b.sub a).SizeSquared = w.FirstPersonCameraForward.SizeSquared * s.GrappleLength ^ 2) ∧
      (s.bIsFirstPerson = false →
        (b.sub a).SizeSquared =
          (w.MeshRightVector.X ^ 2 + w.MeshRightVector.Y ^ 2 + w.ThirdPersonCameraForward.Z ^ 2)
            * s.GrappleLength ^ 2) := by
  unfold GrappleRay at hRay
  constructor
  · intro hFirst
    simp only [hFirst, Bool.not_true, Bool.false_eq_true, if_false, Option.some.injEq,
      Prod.mk.injEq] at hRay
    obtain ⟨ha, hb⟩ := hRay
    subst ha hb
    simp only [FVector.sub, FVector.add, FVector.scale, FVector.SizeSquared]
    ring
  · intro hThird
    simp only [hThird, Bool.not_false, if_true] at hRay
    split at hRay
    · simp at hRay
    · simp only [Option.some.injEq, Prod.mk.injEq] at hRay
      obtain ⟨ha, hb⟩ := hRay
      subst ha hb
      simp only [FVector.sub, FVector.add, FVector.scale, FVector.SizeSquared]
      ring

/-- C18, evaluated on the failing input: the constructed character (third person,
forward aim bucket, `GrappleLength = 10000`) in a world whose mesh right vector is
(1, 0, 0) and whose third-person camera looks along (3/5, 0, 4/5), both of length 1.
`Grapple` produces a ray whose end point is at squared distance 164000000 from its
start, more than `GrappleLength` squared: the direction (1, 0, 4/5) built from the
two vectors is not normalised. In the same world the first-person path, after
`SwitchCamera`, ends its ray at squared distance exactly `GrappleLength` squared. -/
theorem C18_third_person_ray_failing_input :
    initial.bIsFirstPerson = false ∧ initial.StartDirection = 0 ∧
      pitchedWorld.MeshRightVector.SizeSquared = 1 ∧
      pitchedWorld.ThirdPersonCameraForward.SizeSquared = 1 ∧
      pitchedWorld.FirstPersonCameraForward.SizeSquared = 1 ∧
      (∃ a b, GrappleRay pitchedWorld initial = some (a, b) ∧
        (b.sub a).SizeSquared = 164000000 ∧
        initial.GrappleLength ^ 2 < (b.sub a).SizeSquared) ∧
      (∃ a b, GrappleRay pitchedWorld (SwitchCamera initial) = some (a, b) ∧
        (b.sub a).SizeSquared = (SwitchCamera initial).GrappleLength ^ 2) := by
  refine ⟨rfl, rfl, ?_, ?_, ?_, ?_, ?_⟩
  · norm_num [pitchedWorld, sampleWorld, FVector.SizeSquared]
  · norm_num [pitchedWorld, sampleWorld, FVector.SizeSquared]
  · norm_num [pitchedWorld, sampleWorld, FVector.SizeSquared]
  · refine ⟨_, _, rfl, ?_, ?_⟩ <;>
      norm_num [pitchedWorld, sampleWorld, initial, FVector.SizeSquared, FVector.sub,
        FVector.add, FVector.scale]
  · refine ⟨_, _, rfl, ?_⟩
    norm_num [pitchedWorld, sampleWorld, initial, SwitchCamera, FVector.SizeSquared,
      FVector.sub, FVector.add, FVector.scale]

end GrappleCharacter
